import Mathlib

/-!
# CourseQuest Lite — verification of the core search/compare engine

A shallow embedding of the CourseQuest Lite backend core:

* the natural-language Intent Extractor (`parseNaturalLanguageQuery` in
  `routes/ask.js`),
* the filter-to-query compiler shared by the free-text path
  (`executeFilteredQuery` in `routes/ask.js`) and the explicit-parameter path
  (`GET /api/courses` in `routes/courses.js`),
* the pagination metadata computation of both search paths,
* the parameter validators of `routes/courses.js`
  (`validateNumber` / `validateInteger`),
* the comparison endpoint (`GET /api/compare` in `routes/compare.js`) with its
  statistics calculator `generateComparisonInsights`.

JavaScript strings are modelled as `List Char` (the handlers only use ASCII
operations: lowercasing, trimming, splitting, substring search).  JS numbers
produced by `parseInt` on digit captures are modelled as `Nat`, values produced
by `parseFloat` as `ℚ` (the inputs exercised are small decimal literals, exact
in both doubles and `ℚ`).  `Math.round` is modelled as `⌊x + 1/2⌋` (round half
up), which is its behaviour on all reals.  The modelled `parseInt`/`parseFloat`
cover decimal notation (sign, digits, fraction); hexadecimal and exponent forms
are outside the inputs these routes are specified on.
-/

namespace CourseQuest

/-! ## Character/string utilities (models of the JS string operations used) -/

/-- Whitespace as matched by JS `\s` / `trim` for the ASCII range. -/
def isSpaceChar (c : Char) : Bool :=
  c == ' ' || c == '\t' || c == '\n' || c == '\r'

/-- Model of `String.prototype.toLowerCase` (ASCII). -/
def lowerChars (s : List Char) : List Char := s.map Char.toLower

/-- Model of `String.prototype.trim`. -/
def trimChars (s : List Char) : List Char :=
  ((s.dropWhile isSpaceChar).reverse.dropWhile isSpaceChar).reverse

/-- Does `needle` occur at the front of `hay`? (anchored match of a literal) -/
def leadsSeq : List Char → List Char → Bool
  | [], _ => true
  | _ :: _, [] => false
  | c :: cs, d :: ds => c == d && leadsSeq cs ds

/-- Model of `String.prototype.includes`: `needle` occurs somewhere in `hay`. -/
def hasSeq (needle : List Char) : List Char → Bool
  | [] => leadsSeq needle []
  | hay@(_ :: rest) => leadsSeq needle hay || hasSeq needle rest

/-- Model of `String.prototype.split(',')` (no token collapsing). -/
def splitComma : List Char → List (List Char)
  | [] => [[]]
  | c :: rest =>
    if c == ',' then [] :: splitComma rest
    else
      match splitComma rest with
      | [] => [[c]]
      | t :: ts => (c :: t) :: ts

/-- Model of `split(/\s+/).filter(w => w.length > 0)`: whitespace-separated
words of a string. -/
def wordsOf : List Char → List (List Char)
  | [] => []
  | c :: rest =>
    if isSpaceChar c then wordsOf rest
    else
      match wordsOf rest with
      | [] => [[c]]
      | t :: ts =>
        match rest with
        | [] => [[c]]
        | d :: _ => if isSpaceChar d then [c] :: t :: ts else (c :: t) :: ts

/-- Numeric value of a list of decimal digits (the JS `parseInt` applied to a
pure-digit regex capture). -/
def digitsToNat (ds : List Char) : Nat :=
  ds.foldl (fun n c => n * 10 + (c.toNat - '0'.toNat)) 0

/-- `[...new Set(xs)]`: deduplicate preserving the first occurrence, with an
accumulator of already-seen elements. -/
def dedupSeen (seen : List String) : List String → List String
  | [] => []
  | x :: xs =>
    if x ∈ seen then dedupSeen seen xs
    else x :: dedupSeen (x :: seen) xs

/-- `[...new Set(xs)]`: deduplicate preserving the first occurrence. -/
def dedupFirst (xs : List String) : List String := dedupSeen [] xs

/-! ## Course records

A row of the `courses` table as the compare route sees it.  Attribute columns
are nullable in the row store, hence `Option`; numeric columns are modelled
over `ℚ`. -/

structure Course where
  course_id : String
  course_name : Option String := none
  department : Option String := none
  level : Option String := none
  delivery_mode : Option String := none
  credits : Option ℚ := none
  duration_weeks : Option ℚ := none
  rating : Option ℚ := none
  tuition_fee_inr : Option ℚ := none
  year_offered : Option ℚ := none
deriving DecidableEq, Repr

/-! ## Comparison endpoint (`GET /api/compare`, routes/compare.js) -/

/-- `ids.split(',').map(id => id.trim()).filter(id => id !== '')`. -/
def compareTokens (ids : String) : List String :=
  (((splitComma ids.data).map trimChars).filter (· ≠ [])).map List.asString

/-- Round-to-one-decimal statistics block (`fee_range` / `rating_range` /
`credits_range` in `generateComparisonInsights`). -/
structure RangeStats where
  min : Option ℚ := none
  max : Option ℚ := none
  avg : Option ℚ := none
deriving DecidableEq, Repr

/-- The `insights` object of `generateComparisonInsights`. -/
structure Insights where
  fee_range : RangeStats
  rating_range : RangeStats
  credits_range : RangeStats
  levels : List String
  delivery_modes : List String
  departments : List String
deriving DecidableEq, Repr

/-- JS `Math.round`: round half toward positive infinity. -/
def jsRound (x : ℚ) : ℤ := ⌊x + 1 / 2⌋

/-- Sum of a list of rationals (`reduce((a, b) => a + b, 0)`). -/
def listSum (l : List ℚ) : ℚ := l.foldl (· + ·) 0

/-- `filter(Boolean)` over an optional string column: drops SQL `NULL` and the
(falsy) empty string. -/
def truthyStrings (l : List (Option String)) : List String :=
  l.filterMap fun o =>
    match o with
    | some s => if s = "" then none else some s
    | none => none

/-- Model of `generateComparisonInsights` (routes/compare.js, lines 127-189).
`Math.min(...xs)` / `Math.max(...xs)` on a nonempty list are `List.min?` /
`List.max?`; the guards `x !== null && x !== undefined && !isNaN(x)` keep
exactly the non-null numeric values, i.e. `filterMap id` over the `Option`
columns. -/
def generateComparisonInsights (courses : List Course) : Insights :=
  let fees := courses.filterMap (·.tuition_fee_inr)
  let ratings := courses.filterMap (·.rating)
  let credits := courses.filterMap (·.credits)
  { fee_range :=
      if fees.length > 0 then
        { min := fees.min?
          max := fees.max?
          avg := some ((jsRound (listSum fees / fees.length) : ℚ)) }
      else {}
    rating_range :=
      if ratings.length > 0 then
        { min := ratings.min?
          max := ratings.max?
          avg := some ((jsRound (listSum ratings / ratings.length * 10) : ℚ) / 10) }
      else {}
    credits_range :=
      if credits.length > 0 then
        { min := credits.min?
          max := credits.max?
          avg := some ((jsRound (listSum credits / credits.length * 10) : ℚ) / 10) }
      else {}
    levels := dedupFirst (truthyStrings (courses.map (·.level)))
    delivery_modes := dedupFirst (truthyStrings (courses.map (·.delivery_mode)))
    departments := dedupFirst (truthyStrings (courses.map (·.department))) }

/-- Client-facing 4xx outcomes of the compare route. -/
inductive CompareError where
  | missingParam
  | invalidFormat
  | tooManyIds
deriving DecidableEq, Repr

/-- The `meta` object of a compare response (without the timestamp, which is
wall-clock). -/
structure CompareMeta where
  requested_count : Nat
  found_count : Nat
  missing_count : Nat
deriving DecidableEq, Repr

/-- A successful compare response. -/
structure CompareResponse where
  courses : List Course
  missing_ids : List String
  meta : CompareMeta
  insights : Option Insights
deriving DecidableEq, Repr

/-- Rows returned by `WHERE course_id IN (ids) ORDER BY CASE course_id ...`:
all matching rows of the store, ordered by the position of their id in `ids`
(`ids` is duplicate-free when this query is built, so each row has exactly one
position; rows sharing a position keep store order). -/
def orderedRows (store : List Course) (ids : List String) : List Course :=
  ids.flatMap fun id => store.filter fun c => c.course_id == id

/-- Steps 3-9 of the `GET /api/compare` handler (routes/compare.js,
lines 51-112): everything after the id list passed its checks. -/
def compareSuccess (store : List Course) (uniqueIds : List String) :
    CompareResponse :=
  let foundCourses := orderedRows store uniqueIds
  let foundIds := foundCourses.map (·.course_id)
  let missingIds := uniqueIds.filter (fun id => ¬ id ∈ foundIds)
  { courses := foundCourses
    missing_ids := missingIds
    meta :=
      { requested_count := uniqueIds.length
        found_count := foundCourses.length
        missing_count := missingIds.length }
    insights :=
      if foundCourses.length > 1 then
        some (generateComparisonInsights foundCourses)
      else none }

/-- Model of the `GET /api/compare` handler (routes/compare.js, lines 9-112).
`none` models an absent `ids` parameter; the empty string is falsy in JS and
also hits the `if (!ids)` branch.  The thrown `'No valid IDs provided'` and
`'Invalid course IDs format'` errors are both caught and surfaced as the same
400 response, modelled as `invalidFormat`. -/
def compareHandler (store : List Course) (ids : Option String) :
    Except CompareError CompareResponse :=
  match ids with
  | none => .error .missingParam
  | some idsStr =>
    if idsStr = "" then .error .missingParam
    else
      let courseIds := compareTokens idsStr
      if courseIds.length = 0 then .error .invalidFormat
      else if courseIds.length > 4 then .error .tooManyIds
      else if (courseIds.filter (· = "")).length > 0 then .error .invalidFormat
      else .ok (compareSuccess store (dedupFirst courseIds))

/-! ## Intent Extractor (`parseNaturalLanguageQuery`, routes/ask.js lines 48-276)

The regular expressions of the extractor are built from literal alternations,
`\s*`, optional currency markers and digit captures.  Each one is modelled as
an anchored matcher (alternatives tried in the regex's order, each continuing
with the full remainder of the pattern, which reproduces the backtracking of
the JS engine on these patterns) wrapped in `scanOpt`, which reproduces the
leftmost-match rule of `String.prototype.match`. -/

/-- Leftmost match: try the anchored matcher at every suffix, left to right. -/
def scanOpt (p : List Char → Option α) : List Char → Option α
  | [] => p []
  | s@(_ :: rest) =>
    match p s with
    | some v => some v
    | none => scanOpt p rest

/-- Match a literal at the front, returning the remainder. -/
def dropLitAux : List Char → List Char → Option (List Char)
  | [], s => some s
  | _ :: _, [] => none
  | c :: cs, d :: ds => if c == d then dropLitAux cs ds else none

/-- Match a literal keyword at the front, returning the remainder. -/
def dropLit (kw : String) (s : List Char) : Option (List Char) :=
  dropLitAux kw.data s

/-- `\s*` (greedy; always safe here since no following element matches a
space). -/
def dropSpaces (s : List Char) : List Char := s.dropWhile isSpaceChar

/-- First successful alternative, in order. -/
def firstSome : List (Option α) → Option α
  | [] => none
  | o :: os =>
    match o with
    | some v => some v
    | none => firstSome os

/-- The `(?:,\d+)*` tail of a fee capture: comma-separated digit groups,
returned with the commas already stripped (the handlers do
`match[1].replace(/,/g, '')` before `parseInt`).  Fuelled to stay structural;
callers pass the remaining length. -/
def commaGroups : Nat → List Char → List Char × List Char
  | 0, s => ([], s)
  | fuel + 1, s =>
    match s with
    | ',' :: rest =>
      let d := rest.takeWhile Char.isDigit
      if d = [] then ([], s)
      else
        let (g, r) := commaGroups fuel (rest.dropWhile Char.isDigit)
        (d ++ g, r)
    | _ => ([], s)

/-- `(\d+(?:,\d+)*)` followed by `parseInt` on the comma-stripped capture. -/
def numComma (s : List Char) : Option (Nat × List Char) :=
  let d := s.takeWhile Char.isDigit
  if d = [] then none
  else
    let rest := s.dropWhile Char.isDigit
    let (g, r) := commaGroups rest.length rest
    some (digitsToNat (d ++ g), r)

/-- `(\d+(?:\.\d+)?)` followed by `parseFloat` on the capture. -/
def numDec (s : List Char) : Option (ℚ × List Char) :=
  let d := s.takeWhile Char.isDigit
  if d = [] then none
  else
    let rest := s.dropWhile Char.isDigit
    match rest with
    | '.' :: r2 =>
      let f := r2.takeWhile Char.isDigit
      if f = [] then some ((digitsToNat d : ℚ), rest)
      else
        some ((digitsToNat d : ℚ) + (digitsToNat f : ℚ) / (10 : ℚ) ^ f.length,
          r2.dropWhile Char.isDigit)
    | _ => some ((digitsToNat d : ℚ), rest)

/-- `(\d+)` followed by `parseInt`. -/
def natNum (s : List Char) : Option (Nat × List Char) :=
  let d := s.takeWhile Char.isDigit
  if d = [] then none else some (digitsToNat d, s.dropWhile Char.isDigit)

/-- `(?:rs\.?|inr|₹)?\s*(\d+(?:,\d+)*)`: the optional currency marker of the
fee regexes (alternatives in regex order, `rs\.?` greedy first) and the fee
capture.  At most one alternative can reach a digit, so trying them in order
with full continuations is exactly the engine's backtracking. -/
def currencyNum (s : List Char) : Option (Nat × List Char) :=
  firstSome
    [dropLit "rs." s >>= fun r => numComma (dropSpaces r),
     dropLit "rs" s >>= fun r => numComma (dropSpaces r),
     dropLit "inr" s >>= fun r => numComma (dropSpaces r),
     dropLit "₹" s >>= fun r => numComma (dropSpaces r),
     numComma s]

/-- `\s*(?:and|to|-)` — the range separator of the `between` regexes. -/
def sepLit (s : List Char) : Option (List Char) :=
  firstSome [dropLit "and" s, dropLit "to" s, dropLit "-" s]

/-- Anchored `(?:kw1|kw2|…)\s*(?:rs\.?|inr|₹)?\s*(\d+(?:,\d+)*)`. -/
def feeKwNumAt (kws : List String) (s : List Char) : Option Nat :=
  firstSome (kws.map fun kw =>
    (dropLit kw s >>= fun r => currencyNum (dropSpaces r)).map (·.1))

/-- Fee regex 1 (`under|below|less than|cheaper than|maximum|max|up to`). -/
def feeUnderMatch (s : List Char) : Option Nat :=
  scanOpt (feeKwNumAt
    ["under", "below", "less than", "cheaper than", "maximum", "max", "up to"]) s

/-- Fee regex 2 (`above|over|more than|greater than|minimum|min|at least`). -/
def feeAboveMatch (s : List Char) : Option Nat :=
  scanOpt (feeKwNumAt
    ["above", "over", "more than", "greater than", "minimum", "min", "at least"]) s

/-- Fee regex 3, anchored:
`(?:between|from)\s*(?:rs\.?|inr|₹)?\s*(num)\s*(?:and|to|-)\s*(?:…)?\s*(num)`. -/
def feeBetweenAt (s : List Char) : Option (Nat × Nat) :=
  firstSome (["between", "from"].map fun kw =>
    dropLit kw s >>= fun r1 =>
    currencyNum (dropSpaces r1) >>= fun (n1, r2) =>
    sepLit (dropSpaces r2) >>= fun r3 =>
    (currencyNum (dropSpaces r3)).map fun (n2, _) => (n1, n2))

/-- Fee regex 3 (`between X and Y`). -/
def feeBetweenMatch (s : List Char) : Option (Nat × Nat) :=
  scanOpt feeBetweenAt s

/-- Fee regex 4 (`exactly|costs?|fees?|priced? at`; optional-letter
alternatives expanded greedily, in regex order). -/
def feeExactMatch (s : List Char) : Option Nat :=
  scanOpt (feeKwNumAt
    ["exactly", "costs", "cost", "fees", "fee", "priced at", "price at"]) s

/-- The `(?:rating|rated|stars?)` lead of the rating regexes (greedy
expansion of `stars?`). -/
def ratingLeads : List String := ["rating", "rated", "stars", "star"]

/-- Anchored `(?:rating|rated|stars?)\s*(?:mid1|mid2|…)\s*(\d+(?:\.\d+)?)`. -/
def ratingKwAt (mids : List String) (s : List Char) : Option ℚ :=
  firstSome (ratingLeads.map fun lead =>
    dropLit lead s >>= fun r1 =>
    firstSome (mids.map fun mid =>
      dropLit mid (dropSpaces r1) >>= fun r2 =>
      (numDec (dropSpaces r2)).map (·.1)))

/-- Rating regex 1 (`rating … above|over|more than|greater than|at least`). -/
def ratingAboveMatch (s : List Char) : Option ℚ :=
  scanOpt (ratingKwAt ["above", "over", "more than", "greater than", "at least"]) s

/-- Rating regex 2 (`rating … below|under|less than|maximum|max`). -/
def ratingBelowMatch (s : List Char) : Option ℚ :=
  scanOpt (ratingKwAt ["below", "under", "less than", "maximum", "max"]) s

/-- Rating regex 3, anchored: `rating … between|from (num) and|to|- (num)`. -/
def ratingBetweenAt (s : List Char) : Option (ℚ × ℚ) :=
  firstSome (ratingLeads.map fun lead =>
    dropLit lead s >>= fun r1 =>
    firstSome (["between", "from"].map fun kw =>
      dropLit kw (dropSpaces r1) >>= fun r2 =>
      numDec (dropSpaces r2) >>= fun (n1, r3) =>
      sepLit (dropSpaces r3) >>= fun r4 =>
      (numDec (dropSpaces r4)).map fun (n2, _) => (n1, n2)))

/-- Rating regex 3 (`rating between X and Y`). -/
def ratingBetweenMatch (s : List Char) : Option (ℚ × ℚ) :=
  scanOpt ratingBetweenAt s

/-- Rating regex 4, anchored: `(\d+(?:\.\d+)?)\s*(?:star|stars?|rating|rated)`
(the literal expansion of `star|stars?|…` in engine order; the repeated
`star` comes from the backtrack of `stars?`). -/
def ratingBareAt (s : List Char) : Option ℚ :=
  numDec s >>= fun (n, r) =>
  (firstSome (["star", "stars", "star", "rating", "rated"].map fun kw =>
    dropLit kw (dropSpaces r))).map fun _ => n

/-- Rating regex 4 (`N stars`). -/
def ratingBareMatch (s : List Char) : Option ℚ :=
  scanOpt ratingBareAt s

/-- `credits?` (greedy expansion). -/
def creditWord (s : List Char) : Option (List Char) :=
  firstSome [dropLit "credits" s, dropLit "credit" s]

/-- Credits regex 1, anchored: `(\d+)\s*credits?`. -/
def creditsBareAt (s : List Char) : Option Nat :=
  natNum s >>= fun (n, r) => (creditWord (dropSpaces r)).map fun _ => n

/-- Credits regex 1 (`N credits`). -/
def creditsBareMatch (s : List Char) : Option Nat :=
  scanOpt creditsBareAt s

/-- Credits regex 2, anchored:
`(?:between|from)\s*(\d+)\s*(?:and|to|-)\s*(\d+)\s*credits?`. -/
def creditsBetweenAt (s : List Char) : Option (Nat × Nat) :=
  firstSome (["between", "from"].map fun kw =>
    dropLit kw s >>= fun r1 =>
    natNum (dropSpaces r1) >>= fun (n1, r2) =>
    sepLit (dropSpaces r2) >>= fun r3 =>
    natNum (dropSpaces r3) >>= fun (n2, r4) =>
    (creditWord (dropSpaces r4)).map fun _ => (n1, n2))

/-- Credits regex 2 (`between N and M credits`). -/
def creditsBetweenMatch (s : List Char) : Option (Nat × Nat) :=
  scanOpt creditsBetweenAt s

/-- Anchored `(?:kw1|…)\s*(\d+)\s*credits?`. -/
def creditsKwAt (kws : List String) (s : List Char) : Option Nat :=
  firstSome (kws.map fun kw =>
    dropLit kw s >>= fun r1 =>
    natNum (dropSpaces r1) >>= fun (n, r2) =>
    (creditWord (dropSpaces r2)).map fun _ => n)

/-- Credits regex 3 (`at least|minimum|min N credits`). -/
def creditsMinMatch (s : List Char) : Option Nat :=
  scanOpt (creditsKwAt ["at least", "minimum", "min"]) s

/-- Credits regex 4 (`at most|maximum|max|up to N credits`). -/
def creditsMaxMatch (s : List Char) : Option Nat :=
  scanOpt (creditsKwAt ["at most", "maximum", "max", "up to"]) s

/-- Anchored `(?:year|in)\s*(20\d{2})`. -/
def yearAt (s : List Char) : Option Nat :=
  firstSome (["year", "in"].map fun kw =>
    dropLit kw s >>= fun r1 =>
    match dropSpaces r1 with
    | '2' :: '0' :: d1 :: d2 :: _ =>
      if d1.isDigit && d2.isDigit then
        some (2000 + 10 * (d1.toNat - '0'.toNat) + (d2.toNat - '0'.toNat))
      else none
    | _ => none)

/-- Step 7's year regex (`(?:year|in)\s*(20\d{2})`). -/
def yearMatch (s : List Char) : Option Nat :=
  scanOpt yearAt s

/-- The apostrophe character, used by two level keywords. -/
def apos : String := String.mk [Char.ofNat 39]

/-- Step 1's `deliveryModePatterns`, in object-entry order. -/
def deliveryModePatterns : List (String × List String) :=
  [("online", ["online", "remote", "virtual", "digital", "web-based",
      "internet", "distance"]),
   ("offline", ["offline", "physical", "in-person", "campus", "classroom",
      "face-to-face", "onsite", "on-campus"]),
   ("hybrid", ["hybrid", "blended", "mixed", "combined", "flexible"])]

/-- Step 2's `levelPatterns`, in object-entry order. -/
def levelPatterns : List (String × List String) :=
  [("UG", ["undergraduate", "ug", "bachelor", "bachelors",
      "bachelor" ++ apos ++ "s", "btech", "bsc", "ba", "bcom", "undergrad",
      "under-graduate"]),
   ("PG", ["postgraduate", "pg", "graduate", "master", "masters",
      "master" ++ apos ++ "s", "mtech", "msc", "ma", "mcom", "mba",
      "post-graduate", "postgrad"])]

/-- Step 6's `departmentKeywords`, in object-entry order. -/
def departmentKeywords : List (String × List String) :=
  [("Computer Science", ["computer", "programming", "software", "coding",
      "algorithm", "data", "ai", "ml", "tech", "cs", "it"]),
   ("Management", ["management", "business", "mba", "leadership", "strategy",
      "operations", "mgt"]),
   ("Electrical Engineering", ["electrical", "electronics", "circuit",
      "power", "signal", "ee", "eee"]),
   ("Arts", ["arts", "literature", "philosophy", "history", "creative",
      "humanities"]),
   ("Design", ["design", "graphic", "ui", "ux", "visual", "creative", "art"]),
   ("Law", ["law", "legal", "constitutional", "criminal", "commercial",
      "judiciary"]),
   ("Medicine", ["medicine", "medical", "health", "anatomy", "clinical",
      "doctor", "healthcare"]),
   ("Commerce", ["commerce", "finance", "accounting", "economics", "trade",
      "business"])]

/-- `patterns.some(p => lowerQuestion.includes(p))` over an ordered category
table, first matching family wins (`break`). -/
def pickCategory (table : List (String × List String)) (s : List Char) :
    Option String :=
  match table with
  | [] => none
  | (v, kws) :: rest =>
    if kws.any (fun kw => hasSeq kw.data s) then some v
    else pickCategory rest s

/-- Step 8's `stopWords`. -/
def stopWords : List String :=
  ["i", "want", "to", "find", "search", "for", "show", "me", "get", "list",
   "of", "courses", "course", "in", "with", "that", "are", "is", "and", "or",
   "the", "a", "an", "some", "all", "any", "can", "you", "please", "help"]

/-- Step 8's `allPatternWords` (all vocabulary values plus the generic
terms). -/
def allPatternWords : List String :=
  (deliveryModePatterns.flatMap (·.2)) ++ (levelPatterns.flatMap (·.2)) ++
    (departmentKeywords.flatMap (·.2)) ++
    ["rating", "rated", "star", "stars", "credit", "credits",
     "fee", "fees", "cost", "costs", "price", "year"]

/-- The raw filter map produced by the extractor (pre-validation).  An absent
key is `none`; `parseInt` captures are `Nat`, `parseFloat` captures are `ℚ`. -/
structure RawFilters where
  delivery_mode : Option String := none
  level : Option String := none
  min_fee : Option Nat := none
  max_fee : Option Nat := none
  min_rating : Option ℚ := none
  max_rating : Option ℚ := none
  min_credits : Option Nat := none
  max_credits : Option Nat := none
  department : Option String := none
  year_offered : Option Nat := none
  q : Option String := none
deriving DecidableEq, Repr

/-- Step 3: the fee regexes in order, first match wins (`break`). -/
def applyFee (s : List Char) (f : RawFilters) : RawFilters :=
  match feeUnderMatch s with
  | some n => { f with max_fee := some n }
  | none =>
    match feeAboveMatch s with
    | some n => { f with min_fee := some n }
    | none =>
      match feeBetweenMatch s with
      | some (a, b) =>
        { f with min_fee := some (Nat.min a b), max_fee := some (Nat.max a b) }
      | none =>
        match feeExactMatch s with
        | some n => { f with min_fee := some n, max_fee := some n }
        | none => f

/-- Step 4: the rating regexes in order, first match wins (`break`). -/
def applyRating (s : List Char) (f : RawFilters) : RawFilters :=
  match ratingAboveMatch s with
  | some n => { f with min_rating := some n }
  | none =>
    match ratingBelowMatch s with
    | some n => { f with max_rating := some n }
    | none =>
      match ratingBetweenMatch s with
      | some (a, b) =>
        { f with min_rating := some (min a b), max_rating := some (max a b) }
      | none =>
        match ratingBareMatch s with
        | some n => { f with min_rating := some n }
        | none => f

/-- Step 5: the credits regexes in order, first match wins (`break`). -/
def applyCredits (s : List Char) (f : RawFilters) : RawFilters :=
  match creditsBareMatch s with
  | some n => { f with min_credits := some n, max_credits := some n }
  | none =>
    match creditsBetweenMatch s with
    | some (a, b) =>
      { f with min_credits := some (Nat.min a b), max_credits := some (Nat.max a b) }
    | none =>
      match creditsMinMatch s with
      | some n => { f with min_credits := some n }
      | none =>
        match creditsMaxMatch s with
        | some n => { f with max_credits := some n }
        | none => f

/-- Step 8: the free-text residue terms of the (lowercased, trimmed)
question. -/
def searchTermsOf (s : List Char) : List String :=
  ((wordsOf s).map List.asString).filter fun w =>
    !(stopWords.contains w) &&
    !(w.data ≠ [] && w.data.all Char.isDigit : Bool) &&
    !(w.length ≤ 2 : Bool) &&
    !(allPatternWords.contains w)

/-- Step 1: delivery mode, first matching family wins. -/
def applyDelivery (s : List Char) (f : RawFilters) : RawFilters :=
  match pickCategory deliveryModePatterns s with
  | some m => { f with delivery_mode := some m }
  | none => f

/-- Step 2: level, first matching family wins. -/
def applyLevel (s : List Char) (f : RawFilters) : RawFilters :=
  match pickCategory levelPatterns s with
  | some lv => { f with level := some lv }
  | none => f

/-- Step 6: department, first matching family wins. -/
def applyDepartment (s : List Char) (f : RawFilters) : RawFilters :=
  match pickCategory departmentKeywords s with
  | some d => { f with department := some d }
  | none => f

/-- Step 7: year. -/
def applyYear (s : List Char) (f : RawFilters) : RawFilters :=
  match yearMatch s with
  | some y => { f with year_offered := some y }
  | none => f

/-- Step 8: free-text residue joined into `q` when non-empty. -/
def applyResidue (s : List Char) (f : RawFilters) : RawFilters :=
  let terms := searchTermsOf s
  if terms ≠ [] then { f with q := some (String.intercalate " " terms) } else f

/-- `question.toLowerCase().trim()` — the text every pattern runs on. -/
def normText (question : String) : List Char :=
  trimChars (lowerChars question.data)

/-- Model of `parseNaturalLanguageQuery` (routes/ask.js, lines 48-276): the
eight extraction steps applied in program order to the lowercased, trimmed
question. -/
def parseNaturalLanguageQuery (question : String) : RawFilters :=
  let s := normText question
  applyResidue s (applyYear s (applyDepartment s (applyCredits s
    (applyRating s (applyFee s (applyLevel s (applyDelivery s {})))))))

/-! ## Query compiler

Both search paths build a WHERE clause by pushing `(fragment, parameter)`
pairs with a strictly increasing placeholder counter (routes/ask.js
lines 285-358, routes/courses.js lines 113-196).  A fragment records the
placeholder indices its SQL text references (`refs`); the `q` fragment
references its single placeholder twice. -/

/-- A SQL parameter value as pushed into `queryParams`. -/
inductive SqlValue where
  | str (v : String)
  | nat (v : Nat)
  | int (v : Int)
  | rat (v : ℚ)
  | jsNull
deriving DecidableEq, Repr

/-- A predicate fragment: its SQL shape and the placeholder indices the text
references. -/
structure Fragment where
  sql : String
  refs : List Nat
deriving DecidableEq, Repr

/-- The accumulating `(conditions, queryParams, paramCounter)` triple. -/
structure BuildState where
  conds : List Fragment
  params : List SqlValue
  counter : Nat
deriving DecidableEq, Repr

/-- `conditions.push(...); queryParams.push(...); paramCounter++`.  When `dup`
is set the fragment's text references the placeholder twice (the `q`
fragment's shared placeholder). -/
def addFragment (st : BuildState) (sql : String) (dup : Bool) (v : SqlValue) :
    BuildState :=
  { conds := st.conds ++ [⟨sql, if dup then [st.counter, st.counter] else [st.counter]⟩]
    params := st.params ++ [v]
    counter := st.counter + 1 }

/-- One `if (filter) { conditions.push(...); ... }` block: when the optional
filter is present and passes its truthiness test, push a fragment and its
parameter. -/
def condStep (o : Option α) (keep : α → Bool) (sql : String) (dup : Bool)
    (val : α → SqlValue) (st : BuildState) : BuildState :=
  match o with
  | some v => if keep v then addFragment st sql dup (val v) else st
  | none => st

/-- The condition/parameter builder of `executeFilteredQuery` (routes/ask.js,
lines 285-358).  String filters are guarded by JS truthiness (`if (filters.q)`
is false on the empty string), `year_offered` by number truthiness (`0` is
falsy), and the numeric range filters by `!== undefined`. -/
def askBuild (f : RawFilters) : BuildState :=
  let st : BuildState := ⟨[], [], 1⟩
  let st := condStep f.q (fun s => s ≠ "")
    "(course_name ILIKE $k OR department ILIKE $k)" true
    (fun s => .str ("%" ++ s ++ "%")) st
  let st := condStep f.department (fun d => d ≠ "") "department ILIKE $k" false
    (fun d => .str ("%" ++ d ++ "%")) st
  let st := condStep f.level (fun lv => lv ≠ "") "level = $k" false
    (fun lv => .str lv) st
  let st := condStep f.delivery_mode (fun m => m ≠ "") "delivery_mode = $k" false
    (fun m => .str m) st
  let st := condStep f.year_offered (fun y => y ≠ 0) "year_offered = $k" false
    (fun y => .nat y) st
  let st := condStep f.min_fee (fun _ => true) "tuition_fee_inr >= $k" false
    (fun v => .nat v) st
  let st := condStep f.max_fee (fun _ => true) "tuition_fee_inr <= $k" false
    (fun v => .nat v) st
  let st := condStep f.min_rating (fun _ => true) "rating >= $k" false
    (fun v => .rat v) st
  let st := condStep f.max_rating (fun _ => true) "rating <= $k" false
    (fun v => .rat v) st
  let st := condStep f.min_credits (fun _ => true) "credits >= $k" false
    (fun v => .nat v) st
  let st := condStep f.max_credits (fun _ => true) "credits <= $k" false
    (fun v => .nat v) st
  st

/-- `offset = (page - 1) * perPage` (routes/ask.js line 376). -/
def askOffset (page perPage : Nat) : Nat := (page - 1) * perPage

/-- `Math.ceil(totalCount / perPage)` (routes/ask.js line 375), as exact
natural ceiling division. -/
def askTotalPages (totalCount perPage : Nat) : Nat :=
  (totalCount + perPage - 1) / perPage

/-- The parameter list of the main SELECT query of `executeFilteredQuery`
(line 389): the predicate parameters with the two pagination values appended
last. -/
def askSelectParams (f : RawFilters) (page perPage : Nat) : List SqlValue :=
  (askBuild f).params ++ [.nat perPage, .nat (askOffset page perPage)]

/-- The `meta` object of both search responses. -/
structure PageMeta where
  total_count : Nat
  page : Nat
  per_page : Nat
  total_pages : Nat
  has_next_page : Bool
  has_prev_page : Bool
deriving DecidableEq, Repr

/-- The pagination metadata of `executeFilteredQuery` (routes/ask.js,
lines 407-414). -/
def askPageMeta (page perPage totalCount : Nat) : PageMeta :=
  { total_count := totalCount
    page := page
    per_page := perPage
    total_pages := askTotalPages totalCount perPage
    has_next_page := decide (page < askTotalPages totalCount perPage)
    has_prev_page := decide (1 < page) }

/-- `Math.ceil(totalCount / validatedParams.per_page)` (routes/courses.js
line 207). -/
def coursesTotalPages (totalCount perPage : Nat) : Nat :=
  (totalCount + perPage - 1) / perPage

/-- `offset = (validatedParams.page - 1) * validatedParams.per_page`
(routes/courses.js line 208). -/
def coursesOffset (page perPage : Nat) : Nat := (page - 1) * perPage

/-- The pagination metadata of the `GET /api/courses` response
(routes/courses.js, lines 240-247). -/
def coursesPageMeta (page perPage totalCount : Nat) : PageMeta :=
  { total_count := totalCount
    page := page
    per_page := perPage
    total_pages := coursesTotalPages totalCount perPage
    has_next_page := decide (page < coursesTotalPages totalCount perPage)
    has_prev_page := decide (1 < page) }

/-! ## Parameter validation (`GET /api/courses`, routes/courses.js) -/

/-- Model of JS `parseInt` in base 10 (leading whitespace, optional sign,
leading decimal digits; `none` is `NaN`).  Hexadecimal prefixes are outside
the inputs this route is specified on. -/
def jsParseInt (s : String) : Option Int :=
  let t := dropSpaces s.data
  match t with
  | '-' :: r =>
    let d := r.takeWhile Char.isDigit
    if d = [] then none else some (-(digitsToNat d : Int))
  | '+' :: r =>
    let d := r.takeWhile Char.isDigit
    if d = [] then none else some ((digitsToNat d : Int))
  | _ =>
    let d := t.takeWhile Char.isDigit
    if d = [] then none else some ((digitsToNat d : Int))

/-- An unsigned decimal literal with optional fraction, as read by
`parseFloat` (at least one digit on either side of the dot). -/
def parseDecAt (r : List Char) : Option ℚ :=
  let d := r.takeWhile Char.isDigit
  let rest := r.dropWhile Char.isDigit
  match rest with
  | '.' :: r2 =>
    let f := r2.takeWhile Char.isDigit
    if d = [] ∧ f = [] then none
    else some ((digitsToNat d : ℚ) + (digitsToNat f : ℚ) / (10 : ℚ) ^ f.length)
  | _ => if d = [] then none else some ((digitsToNat d : ℚ))

/-- Model of JS `parseFloat` (decimal notation; `none` is `NaN`). -/
def jsParseFloat (s : String) : Option ℚ :=
  let t := dropSpaces s.data
  match t with
  | '-' :: r => (parseDecAt r).map (fun q => -q)
  | '+' :: r => parseDecAt r
  | _ => parseDecAt t

/-- The distinct `throw new Error('Invalid <field>: ...')` shapes of the two
validators, plus the enum 400s of step 3. -/
inductive ValidationError where
  | notNumber (field : String)
  | notInteger (field : String)
  | belowMin (field : String)
  | aboveMax (field : String)
  | badEnum (field : String)
deriving DecidableEq, Repr

/-- Model of `validateNumber` (routes/courses.js, lines 33-46): absent, null
or empty yields `null`; non-numeric throws; then the optional bounds are
checked in order. -/
def validateNumber (value : Option String) (name : String)
    (mn mx : Option ℚ) : Except ValidationError (Option ℚ) :=
  match value with
  | none => .ok none
  | some v =>
    if v = "" then .ok none
    else
      match jsParseFloat v with
      | none => .error (.notNumber name)
      | some num =>
        if (match mn with | some m => decide (num < m) | none => false) then
          .error (.belowMin name)
        else if (match mx with | some m => decide (m < num) | none => false) then
          .error (.aboveMax name)
        else .ok (some num)

/-- Model of `validateInteger` (routes/courses.js, lines 48-61):
`isNaN(parseInt(value)) || !Number.isInteger(parseFloat(value))` throws, then
the optional bounds are checked against the `parseInt` value. -/
def validateInteger (value : Option String) (name : String)
    (mn mx : Option Int) : Except ValidationError (Option Int) :=
  match value with
  | none => .ok none
  | some v =>
    if v = "" then .ok none
    else
      match jsParseInt v, jsParseFloat v with
      | some num, some fv =>
        if fv.den = 1 then
          if (match mn with | some m => decide (num < m) | none => false) then
            .error (.belowMin name)
          else if (match mx with | some m => decide (m < num) | none => false) then
            .error (.aboveMax name)
          else .ok (some num)
        else .error (.notInteger name)
      | _, _ => .error (.notInteger name)

/-- The raw query parameters of `GET /api/courses` (all query-string values
are strings; `none` is an absent parameter). -/
structure CoursesRawQuery where
  q : Option String := none
  department : Option String := none
  level : Option String := none
  delivery_mode : Option String := none
  min_fee : Option String := none
  max_fee : Option String := none
  min_rating : Option String := none
  max_rating : Option String := none
  min_credits : Option String := none
  max_credits : Option String := none
  min_duration_weeks : Option String := none
  max_duration_weeks : Option String := none
  year_offered : Option String := none
  page : Option String := none
  per_page : Option String := none
  sort_by : Option String := none
  sort_dir : Option String := none
deriving DecidableEq, Repr

/-- The `validatedParams` object (routes/courses.js, lines 64-76). -/
structure CoursesValidated where
  min_fee : Option ℚ := none
  max_fee : Option ℚ := none
  min_rating : Option ℚ := none
  max_rating : Option ℚ := none
  min_credits : Option Int := none
  max_credits : Option Int := none
  min_duration_weeks : Option Int := none
  max_duration_weeks : Option Int := none
  year_offered : Option Int := none
  page : Option Int := none
  per_page : Option Int := none
deriving DecidableEq, Repr

/-- JS string truthiness (`undefined` and `''` are falsy). -/
def jsTruthy (o : Option String) : Bool :=
  match o with
  | some s => s ≠ ""
  | none => false

/-- ASCII `toUpperCase`. -/
def jsUpper (s : String) : String := List.asString (s.data.map Char.toUpper)

/-- ASCII `toLowerCase`. -/
def jsLower (s : String) : String := List.asString (s.data.map Char.toLower)

/-- `String.prototype.trim` on a `String`. -/
def trimStr (s : String) : String := List.asString (trimChars s.data)

/-- Building `validatedParams` (routes/courses.js, lines 64-76): the eleven
validator calls run in object-literal order and the first throw wins.  `page`
and `per_page` carry destructuring defaults `1` and `10`. -/
def coursesValidateParams (p : CoursesRawQuery) :
    Except ValidationError CoursesValidated := do
  let min_fee ← validateNumber p.min_fee "min_fee" (some 0) none
  let max_fee ← validateNumber p.max_fee "max_fee" (some 0) none
  let min_rating ← validateNumber p.min_rating "min_rating" (some 0) (some 5)
  let max_rating ← validateNumber p.max_rating "max_rating" (some 0) (some 5)
  let min_credits ← validateInteger p.min_credits "min_credits" (some 1) none
  let max_credits ← validateInteger p.max_credits "max_credits" (some 1) none
  let min_duration_weeks ←
    validateInteger p.min_duration_weeks "min_duration_weeks" (some 1) none
  let max_duration_weeks ←
    validateInteger p.max_duration_weeks "max_duration_weeks" (some 1) none
  let year_offered ←
    validateInteger p.year_offered "year_offered" (some 1900) (some 2100)
  let page ← validateInteger (some (p.page.getD "1")) "page" (some 1) none
  let per_page ←
    validateInteger (some (p.per_page.getD "10")) "per_page" (some 1) (some 100)
  return { min_fee, max_fee, min_rating, max_rating, min_credits, max_credits,
           min_duration_weeks, max_duration_weeks, year_offered, page, per_page }

/-- The whole validation phase of the handler: `validatedParams` (step 2) then
the enum checks (step 3, lines 79-110).  `sort_by` and `sort_dir` carry
destructuring defaults. -/
def coursesValidate (p : CoursesRawQuery) :
    Except ValidationError CoursesValidated := do
  let v ← coursesValidateParams p
  if jsTruthy p.level ∧ ¬ ["UG", "PG"].contains (jsUpper (p.level.getD "")) then
    throw (.badEnum "level")
  else if jsTruthy p.delivery_mode ∧
      ¬ ["online", "offline", "hybrid"].contains (jsLower (p.delivery_mode.getD "")) then
    throw (.badEnum "delivery_mode")
  else if ¬ ["rating", "tuition_fee_inr", "credits", "duration_weeks",
      "course_id", "course_name", "year_offered"].contains (p.sort_by.getD "course_id") then
    throw (.badEnum "sort_by")
  else if ¬ ["asc", "desc"].contains (jsLower (p.sort_dir.getD "asc")) then
    throw (.badEnum "sort_dir")
  else
    return v

/-- The condition/parameter builder of `GET /api/courses` (routes/courses.js,
lines 113-196): text filters are truthiness- and trim-guarded on the raw
strings, the numeric range filters use the validated values
(`!== null`). -/
def coursesBuild (p : CoursesRawQuery) (v : CoursesValidated) : BuildState :=
  let st : BuildState := ⟨[], [], 1⟩
  let st := condStep p.q (fun s => s ≠ "" && trimStr s ≠ "")
    "(course_name ILIKE $k OR department ILIKE $k)" true
    (fun s => .str ("%" ++ trimStr s ++ "%")) st
  let st := condStep p.department (fun d => d ≠ "" && trimStr d ≠ "")
    "department ILIKE $k" false (fun d => .str (trimStr d)) st
  let st := condStep p.level (fun lv => lv ≠ "") "level = $k" false
    (fun lv => .str (jsUpper lv)) st
  let st := condStep p.delivery_mode (fun m => m ≠ "") "delivery_mode = $k" false
    (fun m => .str (jsLower m)) st
  let st := condStep p.year_offered (fun y => y ≠ "") "year_offered = $k" false
    (fun _ => match v.year_offered with | some y => .int y | none => .jsNull) st
  let st := condStep v.min_fee (fun _ => true) "tuition_fee_inr >= $k" false
    (fun x => .rat x) st
  let st := condStep v.max_fee (fun _ => true) "tuition_fee_inr <= $k" false
    (fun x => .rat x) st
  let st := condStep v.min_rating (fun _ => true) "rating >= $k" false
    (fun x => .rat x) st
  let st := condStep v.max_rating (fun _ => true) "rating <= $k" false
    (fun x => .rat x) st
  let st := condStep v.min_credits (fun _ => true) "credits >= $k" false
    (fun x => .int x) st
  let st := condStep v.max_credits (fun _ => true) "credits <= $k" false
    (fun x => .int x) st
  let st := condStep v.min_duration_weeks (fun _ => true)
    "duration_weeks >= $k" false (fun x => .int x) st
  let st := condStep v.max_duration_weeks (fun _ => true)
    "duration_weeks <= $k" false (fun x => .int x) st
  st

/-- The parameter list of the main query of `GET /api/courses` (line 232):
predicate parameters plus `per_page` and the offset appended last. -/
def coursesSelectParams (p : CoursesRawQuery) (v : CoursesValidated)
    (page perPage : Nat) : List SqlValue :=
  (coursesBuild p v).params ++ [.nat perPage, .nat (coursesOffset page perPage)]

/-- `col >= bound` under SQL three-valued logic: a NULL column never
satisfies a comparison. -/
def geOk (col : Option ℚ) (bound : Option ℚ) : Bool :=
  match bound with
  | none => true
  | some b =>
    match col with
    | some x => decide (b ≤ x)
    | none => false

/-- `col <= bound` under SQL three-valued logic. -/
def leOk (col : Option ℚ) (bound : Option ℚ) : Bool :=
  match bound with
  | none => true
  | some b =>
    match col with
    | some x => decide (x ≤ b)
    | none => false

/-- Whether a row satisfies the compiled WHERE clause of `GET /api/courses`.
`other` abstracts the `q`/`department` ILIKE fragments and the
`level`/`delivery_mode`/`year_offered` equality fragments (whatever their
truth value, AND-ed with the range fragments); the range fragments are the
standard SQL comparisons. -/
def courseMatchesWhere (other : Bool) (v : CoursesValidated) (c : Course) :
    Bool :=
  other
    && geOk c.tuition_fee_inr v.min_fee && leOk c.tuition_fee_inr v.max_fee
    && geOk c.rating v.min_rating && leOk c.rating v.max_rating
    && geOk c.credits (v.min_credits.map (fun i => (i : ℚ)))
    && leOk c.credits (v.max_credits.map (fun i => (i : ℚ)))
    && geOk c.duration_weeks (v.min_duration_weeks.map (fun i => (i : ℚ)))
    && leOk c.duration_weeks (v.max_duration_weeks.map (fun i => (i : ℚ)))

/-! ## Pagination parameters of `POST /api/ask` (routes/ask.js, lines 17-18) -/

/-- `Math.max(1, parseInt(page) || 1)`; an absent `page` takes the
destructuring default `1`. -/
def askPageNum (page : Option String) : Int :=
  max 1 (match page with
    | none => 1
    | some s =>
      match jsParseInt s with
      | none => 1
      | some n => if n = 0 then 1 else n)

/-- `Math.min(100, Math.max(1, parseInt(per_page) || 10))`; an absent
`per_page` takes the destructuring default `10`. -/
def askPerPage (per_page : Option String) : Int :=
  min 100 (max 1 (match per_page with
    | none => 10
    | some s =>
      match jsParseInt s with
      | none => 10
      | some n => if n = 0 then 10 else n))

/-- A sample row used to exercise the compare path in concrete witnesses. -/
def rowA : Course :=
  { course_id := "1", credits := some 3, rating := some 4,
    tuition_fee_inr := some 1000 }

/-- A second sample row used to exercise the compare path. -/
def rowB : Course :=
  { course_id := "2", credits := some 4, rating := some (9 / 2),
    tuition_fee_inr := some 2000 }

/-- The alignment invariant of a builder state: the counter is one past the
number of pushed parameters, and the placeholders referenced so far are
exactly `1 .. params.length`. -/
def BuildInv (st : BuildState) : Prop :=
  st.counter = st.params.length + 1 ∧
    (st.conds.flatMap Fragment.refs).toFinset = Finset.Icc 1 st.params.length

/-! # Theorems -/

theorem buildInv_init : BuildInv ⟨[], [], 1⟩ := by
  constructor
  · rfl
  · simp [BuildInv]

theorem buildInv_addFragment {st : BuildState} (h : BuildInv st)
    (sql : String) (dup : Bool) (v : SqlValue) :
    BuildInv (addFragment st sql dup v) := by
  obtain ⟨h1, h2⟩ := h
  constructor
  · simp [addFragment, h1]
  · simp only [addFragment, List.flatMap_append, List.toFinset_append,
      List.length_append, List.length_cons, List.length_nil, h2]
    have hrefs : (([(⟨sql, if dup then [st.counter, st.counter]
        else [st.counter]⟩ : Fragment)]).flatMap Fragment.refs).toFinset =
        ({st.counter} : Finset ℕ) := by
      cases dup <;> simp
    rw [hrefs, h1]
    ext x
    simp only [Finset.mem_union, Finset.mem_Icc, Finset.mem_singleton]
    omega

theorem buildInv_condStep {st : BuildState} (h : BuildInv st) (o : Option α)
    (keep : α → Bool) (sql : String) (dup : Bool) (val : α → SqlValue) :
    BuildInv (condStep o keep sql dup val st) := by
  cases o with
  | none => exact h
  | some v =>
    simp only [condStep]
    split
    · exact buildInv_addFragment h sql dup _
    · exact h

theorem buildInv_askBuild (f : RawFilters) : BuildInv (askBuild f) := by
  unfold askBuild
  exact buildInv_condStep (buildInv_condStep (buildInv_condStep
    (buildInv_condStep (buildInv_condStep (buildInv_condStep
    (buildInv_condStep (buildInv_condStep (buildInv_condStep
    (buildInv_condStep (buildInv_condStep buildInv_init _ _ _ _ _)
    _ _ _ _ _) _ _ _ _ _) _ _ _ _ _) _ _ _ _ _) _ _ _ _ _) _ _ _ _ _)
    _ _ _ _ _) _ _ _ _ _) _ _ _ _ _) _ _ _ _ _

theorem buildInv_coursesBuild (p : CoursesRawQuery) (v : CoursesValidated) :
    BuildInv (coursesBuild p v) := by
  unfold coursesBuild
  exact buildInv_condStep (buildInv_condStep (buildInv_condStep
    (buildInv_condStep (buildInv_condStep (buildInv_condStep
    (buildInv_condStep (buildInv_condStep (buildInv_condStep
    (buildInv_condStep (buildInv_condStep (buildInv_condStep
    (buildInv_condStep buildInv_init _ _ _ _ _) _ _ _ _ _) _ _ _ _ _)
    _ _ _ _ _) _ _ _ _ _) _ _ _ _ _) _ _ _ _ _) _ _ _ _ _) _ _ _ _ _)
    _ _ _ _ _) _ _ _ _ _) _ _ _ _ _) _ _ _ _ _

/-- Head preservation: once the `q` fragment is first, later conditional
pushes keep it first (together with its parameter). -/
theorem condStep_head {st : BuildState} {fr : Fragment} {pv : SqlValue}
    (h1 : st.conds.head? = some fr) (h2 : st.params.head? = some pv)
    (o : Option α) (keep : α → Bool) (sql : String) (dup : Bool)
    (val : α → SqlValue) :
    (condStep o keep sql dup val st).conds.head? = some fr ∧
      (condStep o keep sql dup val st).params.head? = some pv := by
  cases o with
  | none => exact ⟨h1, h2⟩
  | some v =>
    simp only [condStep]
    split
    · constructor
      · rw [addFragment, List.head?_append, h1]
        rfl
      · rw [addFragment, List.head?_append, h2]
        rfl
    · exact ⟨h1, h2⟩

/-- **C1.** For every Filter Set, the compiled SELECT query's parameter list
has length equal to the number of distinct placeholders referenced by its
predicate fragments plus two, the final two parameters being the limit and
offset values — on both the free-text compiler (`executeFilteredQuery`) and
the explicit-parameter compiler (`GET /api/courses`); and a populated `q`
filter contributes exactly one fragment referencing one shared placeholder
twice, with exactly one parameter. -/
theorem selectParams_length_eq_distinct_refs_add_two :
    (∀ (f : RawFilters) (page perPage : Nat),
      (askSelectParams f page perPage).length =
        ((askBuild f).conds.flatMap Fragment.refs).toFinset.card + 2 ∧
      (askSelectParams f page perPage).drop (askBuild f).params.length =
        [.nat perPage, .nat (askOffset page perPage)]) ∧
    (∀ (p : CoursesRawQuery) (v : CoursesValidated) (page perPage : Nat),
      (coursesSelectParams p v page perPage).length =
        ((coursesBuild p v).conds.flatMap Fragment.refs).toFinset.card + 2 ∧
      (coursesSelectParams p v page perPage).drop (coursesBuild p v).params.length =
        [.nat perPage, .nat (coursesOffset page perPage)]) ∧
    (∀ (f : RawFilters) (s : String), f.q = some s → s ≠ "" →
      (askBuild f).conds.head? =
        some ⟨"(course_name ILIKE $k OR department ILIKE $k)", [1, 1]⟩ ∧
      (askBuild f).params.head? = some (.str ("%" ++ s ++ "%"))) := by
  refine ⟨fun f page perPage => ?_, fun p v page perPage => ?_, fun f s hq hs => ?_⟩
  · obtain ⟨-, h2⟩ := buildInv_askBuild f
    constructor
    · rw [askSelectParams, List.length_append, h2, Nat.card_Icc]
      simp
    · rw [askSelectParams, List.drop_left]
  · obtain ⟨-, h2⟩ := buildInv_coursesBuild p v
    constructor
    · rw [coursesSelectParams, List.length_append, h2, Nat.card_Icc]
      simp
    · rw [coursesSelectParams, List.drop_left]
  · have hbase :
        (condStep f.q (fun t => t ≠ "")
          "(course_name ILIKE $k OR department ILIKE $k)" true
          (fun t => .str ("%" ++ t ++ "%")) ⟨[], [], 1⟩).conds.head? =
          some ⟨"(course_name ILIKE $k OR department ILIKE $k)", [1, 1]⟩ ∧
        (condStep f.q (fun t => t ≠ "")
          "(course_name ILIKE $k OR department ILIKE $k)" true
          (fun t => .str ("%" ++ t ++ "%")) ⟨[], [], 1⟩).params.head? =
          some (.str ("%" ++ s ++ "%")) := by
      rw [hq]
      simp [condStep, hs, addFragment]
    have hd := condStep_head hbase.1 hbase.2 f.department (fun d => d ≠ "")
      "department ILIKE $k" false (fun d => .str ("%" ++ d ++ "%"))
    have hl := condStep_head hd.1 hd.2 f.level (fun lv => lv ≠ "")
      "level = $k" false (fun lv => .str lv)
    have hm := condStep_head hl.1 hl.2 f.delivery_mode (fun m => m ≠ "")
      "delivery_mode = $k" false (fun m => .str m)
    have hy := condStep_head hm.1 hm.2 f.year_offered (fun y => y ≠ 0)
      "year_offered = $k" false (fun y => .nat y)
    have h5 := condStep_head hy.1 hy.2 f.min_fee (fun _ => true)
      "tuition_fee_inr >= $k" false (fun v => .nat v)
    have h6 := condStep_head h5.1 h5.2 f.max_fee (fun _ => true)
      "tuition_fee_inr <= $k" false (fun v => .nat v)
    have h7 := condStep_head h6.1 h6.2 f.min_rating (fun _ => true)
      "rating >= $k" false (fun v => .rat v)
    have h8 := condStep_head h7.1 h7.2 f.max_rating (fun _ => true)
      "rating <= $k" false (fun v => .rat v)
    have h9 := condStep_head h8.1 h8.2 f.min_credits (fun _ => true)
      "credits >= $k" false (fun v => .nat v)
    have h10 := condStep_head h9.1 h9.2 f.max_credits (fun _ => true)
      "credits <= $k" false (fun v => .nat v)
    exact h10

/-- Witness for C1: a concrete filter set with a populated `q`. -/
theorem selectParams_length_eq_distinct_refs_add_two_witness :
    (askSelectParams { q := some "ml" } 2 10).length =
      ((askBuild { q := some "ml" }).conds.flatMap Fragment.refs).toFinset.card + 2 ∧
    (askBuild { q := some "ml" }).conds.head? =
      some ⟨"(course_name ILIKE $k OR department ILIKE $k)", [1, 1]⟩ ∧
    (askBuild { q := some "ml" }).params.head? =
      some (.str ("%" ++ "ml" ++ "%")) := by
  refine ⟨(selectParams_length_eq_distinct_refs_add_two.1 _ 2 10).1, ?_, ?_⟩
  · exact (selectParams_length_eq_distinct_refs_add_two.2.2 { q := some "ml" }
      "ml" rfl (by decide)).1
  · exact (selectParams_length_eq_distinct_refs_add_two.2.2 { q := some "ml" }
      "ml" rfl (by decide)).2

/-- `(t + p - 1) / p` (the `Math.ceil(totalCount / perPage)` of both search
paths) is the exact ceiling of `t / p`. -/
theorem askTotalPages_cast_eq_ceil (t p : Nat) (hp : 1 ≤ p) :
    (askTotalPages t p : ℤ) = ⌈(t : ℚ) / (p : ℚ)⌉ := by
  have hp0 : 0 < p := hp
  have hq : (0 : ℚ) < (p : ℚ) := by exact_mod_cast hp0
  have hceil : askTotalPages t p = t ⌈/⌉ p :=
    (Nat.ceilDiv_eq_add_pred_div t p).symm
  apply eq_of_forall_ge_iff
  intro z
  rcases le_or_lt 0 z with hz | hz
  · lift z to ℕ using hz
    rw [Int.ceil_le, div_le_iff₀ hq, hceil]
    constructor
    · intro h
      have h' : t ⌈/⌉ p ≤ z := by exact_mod_cast h
      have h'' : t ≤ p * z := (ceilDiv_le_iff_le_mul hp0).1 h'
      have hcast : (t : ℚ) ≤ ((p * z : ℕ) : ℚ) := by exact_mod_cast h''
      push_cast at hcast ⊢
      linarith
    · intro h
      push_cast at h
      have h' : t ≤ p * z := by
        have hcast : (t : ℚ) ≤ ((p * z : ℕ) : ℚ) := by push_cast; linarith
        exact_mod_cast hcast
      have h'' : t ⌈/⌉ p ≤ z := (ceilDiv_le_iff_le_mul hp0).2 h'
      exact_mod_cast h''
  · have h1 : ¬ ((askTotalPages t p : ℤ) ≤ z) := by
      have : (0 : ℤ) ≤ (askTotalPages t p : ℤ) := Int.natCast_nonneg _
      omega
    have h2 : ¬ (⌈(t : ℚ) / (p : ℚ)⌉ ≤ z) := by
      have : (0 : ℤ) ≤ ⌈(t : ℚ) / (p : ℚ)⌉ :=
        Int.ceil_nonneg (div_nonneg (by positivity) (by positivity))
      omega
    simp only [h1, h2]

/-- **C6.** For page ≥ 1 and per_page ≥ 1, the Page Meta of both search paths
has `total_pages = ceil(total_count / per_page)` (hence 0 when the count is
0), `has_next_page ⇔ page < total_pages`, `has_prev_page ⇔ page > 1`, and the
row query's final offset parameter is `(page - 1) * per_page`. -/
theorem pageMeta_correct (page perPage totalCount : Nat)
    (_hpage : 1 ≤ page) (hpp : 1 ≤ perPage) :
    (((askPageMeta page perPage totalCount).total_pages : ℤ) =
        ⌈(totalCount : ℚ) / (perPage : ℚ)⌉) ∧
    (totalCount = 0 → (askPageMeta page perPage totalCount).total_pages = 0) ∧
    ((askPageMeta page perPage totalCount).has_next_page = true ↔
        page < (askPageMeta page perPage totalCount).total_pages) ∧
    ((askPageMeta page perPage totalCount).has_prev_page = true ↔ 1 < page) ∧
    coursesPageMeta page perPage totalCount = askPageMeta page perPage totalCount ∧
    (∀ f : RawFilters,
      (askSelectParams f page perPage).drop (askBuild f).params.length =
        [.nat perPage, .nat ((page - 1) * perPage)]) ∧
    (∀ (p : CoursesRawQuery) (v : CoursesValidated),
      (coursesSelectParams p v page perPage).drop (coursesBuild p v).params.length =
        [.nat perPage, .nat ((page - 1) * perPage)]) := by
  refine ⟨askTotalPages_cast_eq_ceil totalCount perPage hpp, ?_, ?_, ?_, rfl,
    ?_, ?_⟩
  · intro h
    subst h
    show (0 + perPage - 1) / perPage = 0
    exact Nat.div_eq_of_lt (by omega)
  · exact decide_eq_true_iff
  · exact decide_eq_true_iff
  · intro f
    rw [askSelectParams, List.drop_left]
    rfl
  · intro p v
    rw [coursesSelectParams, List.drop_left]
    rfl

/-- Witness for C6 at `page = 2`, `per_page = 10`, `total_count = 25`. -/
theorem pageMeta_correct_witness :
    ((1 ≤ 2 ∧ 1 ≤ 10) ∧
      ((((askPageMeta 2 10 25).total_pages : ℤ) =
          ⌈((25 : ℕ) : ℚ) / ((10 : ℕ) : ℚ)⌉) ∧
      (25 = 0 → (askPageMeta 2 10 25).total_pages = 0) ∧
      ((askPageMeta 2 10 25).has_next_page = true ↔
          2 < (askPageMeta 2 10 25).total_pages) ∧
      ((askPageMeta 2 10 25).has_prev_page = true ↔ 1 < 2) ∧
      coursesPageMeta 2 10 25 = askPageMeta 2 10 25 ∧
      (∀ f : RawFilters,
        (askSelectParams f 2 10).drop (askBuild f).params.length =
          [.nat 10, .nat ((2 - 1) * 10)]) ∧
      (∀ (p : CoursesRawQuery) (v : CoursesValidated),
        (coursesSelectParams p v 2 10).drop (coursesBuild p v).params.length =
          [.nat 10, .nat ((2 - 1) * 10)]))) :=
  ⟨⟨by decide, by decide⟩, pageMeta_correct 2 10 25 (by decide) (by decide)⟩

/-- **C4 counterexample.** On the explicit-parameter path a supplied
`page=0` fails validation (the claim said it is floored to 1 and never
rejected); the free-text path does floor it. -/
theorem coursesPage_zero_rejected :
    coursesValidate { page := some "0" } = .error (.belowMin "page") ∧
    askPageNum (some "0") = 1 :=
  ⟨rfl, rfl⟩

/-- A validation error in `validatedParams` short-circuits the whole
explicit-path validation phase. -/
theorem coursesValidate_params_error {p : CoursesRawQuery}
    {e : ValidationError} (h : coursesValidateParams p = .error e) :
    coursesValidate p = .error e := by
  unfold coursesValidate
  rw [h]
  rfl

/-- **C4 (amended).** On the free-text path, an absent `page`/`per_page`
defaults to 1/10, a supplied `page` below 1 is floored to 1 and a supplied
`per_page` is clamped into [1, 100]; on the explicit-parameter path the
defaults are the same but a supplied `page` below 1, or a supplied `per_page`
outside [1, 100], fails validation with a 4xx error instead of being
floored/clamped. -/
theorem pagination_params_validation :
    (askPageNum none = 1 ∧ askPerPage none = 10) ∧
    (∀ (s : String) (n : Int), jsParseInt s = some n → n < 1 →
      askPageNum (some s) = 1) ∧
    (∀ s : String, 1 ≤ askPerPage (some s) ∧ askPerPage (some s) ≤ 100) ∧
    (coursesValidate {} = .ok { page := some 1, per_page := some 10 }) ∧
    (∀ (s : String) (n : Int) (fq : ℚ), jsParseInt s = some n →
      jsParseFloat s = some fq → fq.den = 1 → n < 1 →
      coursesValidate { page := some s } = .error (.belowMin "page")) ∧
    (∀ (s : String) (n : Int) (fq : ℚ), jsParseInt s = some n →
      jsParseFloat s = some fq → fq.den = 1 → n < 1 →
      coursesValidate { per_page := some s } =
        .error (.belowMin "per_page")) ∧
    (∀ (s : String) (n : Int) (fq : ℚ), jsParseInt s = some n →
      jsParseFloat s = some fq → fq.den = 1 → 100 < n →
      coursesValidate { per_page := some s } =
        .error (.aboveMax "per_page")) := by
  refine ⟨⟨rfl, rfl⟩, ?_, ?_, rfl, ?_, ?_, ?_⟩
  · intro s n h hn
    have hred : askPageNum (some s) =
        max 1 (match jsParseInt s with
          | none => 1
          | some n => if n = 0 then 1 else n) := rfl
    rw [hred, h]
    show max 1 (if n = 0 then 1 else n) = 1
    rcases eq_or_ne n 0 with h0 | h0
    · simp [h0]
    · rw [if_neg h0]
      exact max_eq_left (by omega)
  · intro s
    constructor
    · exact le_min (by norm_num) (le_max_left 1 _)
    · exact min_le_left _ _
  · intro s n fq hI hF hden hn
    have hs : s ≠ "" := by
      intro he
      subst he
      rw [show jsParseInt "" = none from rfl] at hI
      exact Option.noConfusion hI
    simp only [coursesValidate, coursesValidateParams, Option.getD, bind,
      Except.bind, validateNumber, validateInteger]
    rw [if_neg hs, hI, hF]
    simp [hden, hn]
  · intro s n fq hI hF hden hn
    have hs : s ≠ "" := by
      intro he
      subst he
      rw [show jsParseInt "" = none from rfl] at hI
      exact Option.noConfusion hI
    apply coursesValidate_params_error
    have hred : coursesValidateParams { per_page := some s } =
        (validateInteger (some s) "per_page" (some 1) (some 100)).bind
          (fun pp => .ok { page := some 1, per_page := pp }) := rfl
    have hval : validateInteger (some s) "per_page" (some 1) (some 100) =
        .error (.belowMin "per_page") := by
      simp only [validateInteger]
      rw [if_neg hs, hI, hF]
      simp [hden, hn]
    rw [hred, hval]
    rfl
  · intro s n fq hI hF hden hn
    have hs : s ≠ "" := by
      intro he
      subst he
      rw [show jsParseInt "" = none from rfl] at hI
      exact Option.noConfusion hI
    apply coursesValidate_params_error
    have hred : coursesValidateParams { per_page := some s } =
        (validateInteger (some s) "per_page" (some 1) (some 100)).bind
          (fun pp => .ok { page := some 1, per_page := pp }) := rfl
    have hnlt : ¬ (n < 1) := by omega
    have hval : validateInteger (some s) "per_page" (some 1) (some 100) =
        .error (.aboveMax "per_page") := by
      simp only [validateInteger]
      rw [if_neg hs, hI, hF]
      simp [hden, hnlt, hn]
    rw [hred, hval]
    rfl

/-- Witness for C4: the amended theorem applied at `page = "0"`. -/
theorem pagination_params_validation_witness :
    (jsParseInt "0" = some 0 ∧ (0 : Int) < 1 ∧
      jsParseFloat "0" = some 0 ∧ (0 : ℚ).den = 1) ∧
    (jsParseInt "200" = some 200 ∧ (100 : Int) < 200 ∧
      jsParseFloat "200" = some 200 ∧ (200 : ℚ).den = 1) ∧
    askPageNum (some "0") = 1 ∧
    coursesValidate { page := some "0" } = .error (.belowMin "page") ∧
    coursesValidate { per_page := some "0" } = .error (.belowMin "per_page") ∧
    coursesValidate { per_page := some "200" } = .error (.aboveMax "per_page") :=
  ⟨⟨rfl, by decide, rfl, by decide⟩,
    ⟨rfl, by decide, rfl, by decide⟩,
    pagination_params_validation.2.1 "0" 0 rfl (by decide),
    pagination_params_validation.2.2.2.2.1 "0" 0 0 rfl rfl (by decide) (by decide),
    pagination_params_validation.2.2.2.2.2.1 "0" 0 0 rfl rfl (by decide) (by decide),
    pagination_params_validation.2.2.2.2.2.2 "200" 200 200 rfl rfl (by decide)
      (by decide)⟩

/-- **C5 counterexample.** `min_credits=10, max_credits=4` passes validation
(the claim said it must fail with a 4xx): both bounds are validated
independently and there is no cross-field check. -/
theorem reversedCredits_pass_validation :
    coursesValidate { min_credits := some "10", max_credits := some "4" } =
      .ok { min_credits := some 10, max_credits := some 4,
            page := some 1, per_page := some 10 } :=
  rfl

/-- **C5 (amended).** A request with `min_credits > max_credits` (both valid
individually) is not rejected: it passes validation, both range fragments are
compiled, and the resulting WHERE clause is unsatisfiable, so the query
executes and matches no row. -/
theorem reversedCredits_unsatisfiable :
    (coursesValidate { min_credits := some "10", max_credits := some "4" } =
      .ok { min_credits := some 10, max_credits := some 4,
            page := some 1, per_page := some 10 }) ∧
    (∀ (v : CoursesValidated) (m M : Int), v.min_credits = some m →
      v.max_credits = some M → M < m →
      ∀ (other : Bool) (c : Course), courseMatchesWhere other v c = false) := by
  refine ⟨rfl, ?_⟩
  intro v m M h1 h2 h3 other c
  rcases hc : c.credits with _ | x
  · simp [courseMatchesWhere, geOk, leOk, h1, h2, hc]
  · have hnot : ¬ (((m : ℚ) ≤ x) ∧ (x ≤ (M : ℚ))) := by
      rintro ⟨ha, hb⟩
      have hMm : (M : ℚ) < (m : ℚ) := by exact_mod_cast h3
      linarith
    simp only [courseMatchesWhere, geOk, leOk, h1, h2, hc, Option.map_some]
    by_cases hmx : (m : ℚ) ≤ x
    · have hxM : ¬ (x ≤ (M : ℚ)) := fun hh => hnot ⟨hmx, hh⟩
      simp [hmx, hxM]
    · simp [hmx]

/-- Witness for C5: the amended theorem applied to the validated reversed
range and a concrete row with 7 credits. -/
theorem reversedCredits_unsatisfiable_witness :
    courseMatchesWhere true
      { min_credits := some 10, max_credits := some 4,
        page := some 1, per_page := some 10 }
      { course_id := "CS101", credits := some 7 } = false :=
  reversedCredits_unsatisfiable.2
    { min_credits := some 10, max_credits := some 4,
      page := some 1, per_page := some 10 } 10 4 rfl rfl (by decide) true
    { course_id := "CS101", credits := some 7 }

/-- **C3 counterexample.** `ids = "1,1,1,1,1"` is rejected with
TooManyIdsError even though its deduplicated set has a single element: the
cap is checked before deduplication. -/
theorem tooManyIds_counterexample :
    compareHandler [] (some "1,1,1,1,1") = .error .tooManyIds ∧
    (dedupFirst (compareTokens "1,1,1,1,1")).length = 1 :=
  ⟨rfl, rfl⟩

/-- **C3 (amended).** The request fails with TooManyIdsError iff the number
of ids remaining after splitting on comma, trimming and dropping empties —
*before* deduplication — exceeds 4; duplicate tokens count toward the cap. -/
theorem tooManyIds_iff_raw_tokens (store : List Course) (s : String) :
    compareHandler store (some s) = .error .tooManyIds ↔
      4 < (compareTokens s).length := by
  have heq : compareHandler store (some s) =
      (if s = "" then Except.error CompareError.missingParam
       else if (compareTokens s).length = 0 then
         Except.error CompareError.invalidFormat
       else if (compareTokens s).length > 4 then
         Except.error CompareError.tooManyIds
       else if ((compareTokens s).filter (· = "")).length > 0 then
         Except.error CompareError.invalidFormat
       else Except.ok (compareSuccess store (dedupFirst (compareTokens s)))) :=
    rfl
  rw [heq]
  constructor
  · intro h
    split_ifs at h with h1 h2 h3 h4
    all_goals
      first
        | omega
        | exact Except.noConfusion h
        | exact absurd (Except.error.inj h) (by simp)
  · intro h
    have hs : s ≠ "" := by
      intro he
      subst he
      rw [show (compareTokens "").length = 0 from rfl] at h
      omega
    have h0 : ¬ ((compareTokens s).length = 0) := by omega
    rw [if_neg hs, if_neg h0, if_pos (by omega : (compareTokens s).length > 4)]

/-- The compare handler on a present `ids` string, with the `let` spelled
out. -/
theorem compareHandler_some_eq (store : List Course) (s : String) :
    compareHandler store (some s) =
      (if s = "" then Except.error CompareError.missingParam
       else if (compareTokens s).length = 0 then
         Except.error CompareError.invalidFormat
       else if (compareTokens s).length > 4 then
         Except.error CompareError.tooManyIds
       else if ((compareTokens s).filter (· = "")).length > 0 then
         Except.error CompareError.invalidFormat
       else Except.ok (compareSuccess store (dedupFirst (compareTokens s)))) :=
  rfl

/-- A successful compare response is `compareSuccess` on the deduplicated
token list. -/
theorem compareHandler_ok {store : List Course} {s : String}
    {r : CompareResponse} (h : compareHandler store (some s) = .ok r) :
    r = compareSuccess store (dedupFirst (compareTokens s)) := by
  rw [compareHandler_some_eq] at h
  split_ifs at h
  all_goals first
    | exact Except.noConfusion h
    | exact (Except.ok.inj h).symm

/-- An id absent from the store matches no row. -/
theorem filter_cid_eq_nil {store : List Course} {a : String}
    (h : ¬ a ∈ store.map (·.course_id)) :
    store.filter (fun c => c.course_id == a) = [] := by
  induction store with
  | nil => rfl
  | cons hd tl ih =>
    simp only [List.map_cons, List.mem_cons] at h
    push_neg at h
    rw [List.filter_cons, if_neg (by simp [beq_iff_eq]; exact fun he => h.1 he.symm)]
    exact ih h.2

/-- With duplicate-free ids in the store, the rows matching one id project to
that id exactly when it is present. -/
theorem filter_map_cid {store : List Course}
    (h : (store.map (·.course_id)).Nodup) (a : String) :
    (store.filter (fun c => c.course_id == a)).map (·.course_id) =
      if a ∈ store.map (·.course_id) then [a] else [] := by
  induction store with
  | nil => simp
  | cons hd tl ih =>
    rw [List.map_cons, List.nodup_cons] at h
    by_cases hda : hd.course_id = a
    · rw [List.filter_cons, if_pos (by simp [hda])]
      rw [List.map_cons, filter_cid_eq_nil (hda ▸ h.1)]
      simp [hda]
    · rw [List.filter_cons, if_neg (by simp [hda]), ih h.2, List.map_cons]
      by_cases hmem : a ∈ tl.map (·.course_id)
      · rw [if_pos hmem, if_pos (by simp [List.mem_cons, hmem])]
      · rw [if_neg hmem, if_neg (by
          simp only [List.mem_cons]
          rintro (he | hm)
          · exact hda he.symm
          · exact hmem hm)]

/-- The CASE-ordered IN query returns, in requested order, exactly the
requested ids present in the store (one row each when ids are unique in the
store). -/
theorem orderedRows_map_cid {store : List Course}
    (h : (store.map (·.course_id)).Nodup) (ids : List String) :
    (orderedRows store ids).map (·.course_id) =
      ids.filter (fun id => decide (id ∈ store.map (·.course_id))) := by
  induction ids with
  | nil => rfl
  | cons hd tl ih =>
    have hcons : orderedRows store (hd :: tl) =
        store.filter (fun c => c.course_id == hd) ++ orderedRows store tl := by
      simp [orderedRows]
    rw [hcons, List.map_append, filter_map_cid h hd, ih, List.filter_cons]
    by_cases hm : hd ∈ store.map (·.course_id) <;> simp [hm]

/-- A Boolean filter and its complement partition a list's length. -/
theorem length_filter_bool_partition (p : α → Bool) (l : List α) :
    (l.filter p).length + (l.filter (fun a => ! p a)).length = l.length := by
  induction l with
  | nil => rfl
  | cons hd tl ih =>
    rw [List.filter_cons, List.filter_cons]
    cases hp : p hd <;> simp [hp, ← ih] <;> omega

/-- **C8.** For every comparison request, the returned courses appear in the
first-occurrence order of the deduplicated requested ids (restricted to ids
present in the store); in particular `"3,1,3,2"` deduplicates to
`["3","1","2"]`. -/
theorem compare_order_first_occurrence :
    (∀ (store : List Course) (s : String) (r : CompareResponse),
      (store.map (·.course_id)).Nodup →
      compareHandler store (some s) = .ok r →
      r.courses.map (·.course_id) =
        (dedupFirst (compareTokens s)).filter
          (fun id => decide (id ∈ store.map (·.course_id)))) ∧
    dedupFirst (compareTokens "3,1,3,2") = ["3", "1", "2"] := by
  constructor
  · intro store s r hnd hok
    rw [compareHandler_ok hok]
    exact orderedRows_map_cid hnd _
  · rfl

/-- Witness for C8 at a two-row store and `ids = "3,1,3,2"`: the returned
ids are `["1","2"]`, the present requested ids in first-occurrence order. -/
theorem compare_order_first_occurrence_witness :
    (compareSuccess [rowA, rowB]
        (dedupFirst (compareTokens "3,1,3,2"))).courses.map (·.course_id) =
      (dedupFirst (compareTokens "3,1,3,2")).filter
        (fun id => decide (id ∈ ([rowA, rowB] : List Course).map (·.course_id))) ∧
    dedupFirst (compareTokens "3,1,3,2") = ["3", "1", "2"] :=
  ⟨compare_order_first_occurrence.1 [rowA, rowB] "3,1,3,2" _ (by decide) rfl,
    compare_order_first_occurrence.2⟩

/-- **C10.** For every successful comparison response,
`requested_count = found_count + missing_count`, and `missing_ids` is exactly
the requested-order sublist of the deduplicated ids not occurring among the
returned courses. -/
theorem compare_meta_partition :
    ∀ (store : List Course) (s : String) (r : CompareResponse),
      (store.map (·.course_id)).Nodup →
      compareHandler store (some s) = .ok r →
      r.meta.requested_count = r.meta.found_count + r.meta.missing_count ∧
      r.missing_ids = (dedupFirst (compareTokens s)).filter
        (fun id => decide (¬ id ∈ r.courses.map (·.course_id))) := by
  intro store s r hnd hok
  rw [compareHandler_ok hok]
  constructor
  · show (dedupFirst (compareTokens s)).length =
      (orderedRows store (dedupFirst (compareTokens s))).length +
        ((dedupFirst (compareTokens s)).filter (fun id => decide (¬ id ∈
          (orderedRows store (dedupFirst (compareTokens s))).map
            (·.course_id)))).length
    set uniq := dedupFirst (compareTokens s) with huniq
    have hlen : (orderedRows store uniq).length =
        (uniq.filter (fun id => decide (id ∈ store.map (·.course_id)))).length := by
      rw [← orderedRows_map_cid hnd, List.length_map]
    have hcongr : uniq.filter (fun id => decide (¬ id ∈
        (orderedRows store uniq).map (·.course_id))) =
        uniq.filter (fun id => ! decide (id ∈ store.map (·.course_id))) := by
      apply List.filter_congr
      intro x hx
      rw [orderedRows_map_cid hnd]
      have hiff : (x ∈ uniq.filter
          (fun id => decide (id ∈ store.map (·.course_id)))) ↔
          x ∈ store.map (·.course_id) := by
        rw [List.mem_filter]
        constructor
        · exact fun hpair => of_decide_eq_true hpair.2
        · exact fun hmem => ⟨hx, decide_eq_true hmem⟩
      calc decide (¬ x ∈ uniq.filter
            (fun id => decide (id ∈ store.map (·.course_id))))
          = ! decide (x ∈ uniq.filter
            (fun id => decide (id ∈ store.map (·.course_id)))) := by
            rw [decide_not]
        _ = ! decide (x ∈ store.map (·.course_id)) := by
            rw [decide_eq_decide.mpr hiff]
    rw [hlen, hcongr]
    exact (length_filter_bool_partition
      (fun id => decide (id ∈ store.map (·.course_id))) uniq).symm
  · rfl

/-- Witness for C10 at a two-row store and `ids = "3,1,3,2"` (ids 1 and 2
found, id 3 missing: 3 = 2 + 1). -/
theorem compare_meta_partition_witness :
    (compareSuccess [rowA, rowB]
        (dedupFirst (compareTokens "3,1,3,2"))).meta.requested_count =
      (compareSuccess [rowA, rowB]
        (dedupFirst (compareTokens "3,1,3,2"))).meta.found_count +
      (compareSuccess [rowA, rowB]
        (dedupFirst (compareTokens "3,1,3,2"))).meta.missing_count :=
  (compare_meta_partition [rowA, rowB] "3,1,3,2" _ (by decide) rfl).1

/-- `List.min?` over `ℚ` is the least element. -/
theorem rat_min?_eq_some_iff {l : List ℚ} {a : ℚ} :
    l.min? = some a ↔ a ∈ l ∧ ∀ b ∈ l, a ≤ b := by
  haveI : Std.Antisymm ((· : ℚ) ≤ ·) := ⟨fun h1 h2 => le_antisymm h1 h2⟩
  exact List.min?_eq_some_iff (fun a => le_refl a) (fun a b => min_choice a b)
    (fun a b c => le_min_iff)

/-- `List.max?` over `ℚ` is the greatest element. -/
theorem rat_max?_eq_some_iff {l : List ℚ} {a : ℚ} :
    l.max? = some a ↔ a ∈ l ∧ ∀ b ∈ l, b ≤ a := by
  haveI : Std.Antisymm ((· : ℚ) ≤ ·) := ⟨fun h1 h2 => le_antisymm h1 h2⟩
  exact List.max?_eq_some_iff (fun a => le_refl a) (fun a b => max_choice a b)
    (fun a b c => max_le_iff)

/-- The `min` of a length-guarded statistics block is the least element. -/
theorem guardedStats_min (l : List ℚ) (av : ℚ) {m : ℚ} :
    (if l.length > 0 then
        ({ min := l.min?, max := l.max?, avg := some av } : RangeStats)
      else {}).min = some m ↔ m ∈ l ∧ ∀ y ∈ l, m ≤ y := by
  by_cases h : l.length > 0
  · rw [if_pos h]
    exact rat_min?_eq_some_iff
  · rw [if_neg h]
    have hl : l = [] := List.eq_nil_of_length_eq_zero (by omega)
    subst hl
    simp

/-- The `max` of a length-guarded statistics block is the greatest element. -/
theorem guardedStats_max (l : List ℚ) (av : ℚ) {m : ℚ} :
    (if l.length > 0 then
        ({ min := l.min?, max := l.max?, avg := some av } : RangeStats)
      else {}).max = some m ↔ m ∈ l ∧ ∀ y ∈ l, y ≤ m := by
  by_cases h : l.length > 0
  · rw [if_pos h]
    exact rat_max?_eq_some_iff
  · rw [if_neg h]
    have hl : l = [] := List.eq_nil_of_length_eq_zero (by omega)
    subst hl
    simp

/-- The `avg` of a length-guarded statistics block on non-empty data. -/
theorem guardedStats_avg (l : List ℚ) (av : ℚ) (h : l ≠ []) :
    (if l.length > 0 then
        ({ min := l.min?, max := l.max?, avg := some av } : RangeStats)
      else {}).avg = some av := by
  rw [if_pos (List.length_pos.mpr h)]

/-- A length-guarded statistics block on empty data is all-null. -/
theorem guardedStats_empty (l : List ℚ) (av : ℚ) (h : l = []) :
    (if l.length > 0 then
        ({ min := l.min?, max := l.max?, avg := some av } : RangeStats)
      else {}) = ({} : RangeStats) := by
  subst h
  rfl

/-- **C9.** Insights are present iff more than one course was found and are
computed by `generateComparisonInsights` over the found rows; each statistic
uses only the non-null values of its field: min and max are the exact extrema,
the fee average is the mean rounded to the nearest integer
(`Math.round(mean)`), and the rating/credits averages are the mean rounded to
one decimal place (`Math.round(mean * 10) / 10`); `jsRound` is
nearest-integer rounding. -/
theorem comparison_insights_spec :
    (∀ (store : List Course) (ids : Option String) (r : CompareResponse),
      compareHandler store ids = .ok r →
      ((∃ i, r.insights = some i) ↔ 1 < r.courses.length) ∧
      (∀ i, r.insights = some i → i = generateComparisonInsights r.courses)) ∧
    (∀ x : ℚ, |x - (jsRound x : ℚ)| ≤ 1 / 2) ∧
    (∀ courses : List Course,
      (∀ m : ℚ, (generateComparisonInsights courses).fee_range.min = some m ↔
        m ∈ courses.filterMap (·.tuition_fee_inr) ∧
          ∀ y ∈ courses.filterMap (·.tuition_fee_inr), m ≤ y) ∧
      (∀ m : ℚ, (generateComparisonInsights courses).fee_range.max = some m ↔
        m ∈ courses.filterMap (·.tuition_fee_inr) ∧
          ∀ y ∈ courses.filterMap (·.tuition_fee_inr), y ≤ m) ∧
      (courses.filterMap (·.tuition_fee_inr) ≠ [] →
        (generateComparisonInsights courses).fee_range.avg =
          some ((jsRound (listSum (courses.filterMap (·.tuition_fee_inr)) /
            (courses.filterMap (·.tuition_fee_inr)).length) : ℚ))) ∧
      ((courses.filterMap (·.tuition_fee_inr)) = [] →
        (generateComparisonInsights courses).fee_range = {}) ∧
      (∀ m : ℚ, (generateComparisonInsights courses).rating_range.min = some m ↔
        m ∈ courses.filterMap (·.rating) ∧
          ∀ y ∈ courses.filterMap (·.rating), m ≤ y) ∧
      (∀ m : ℚ, (generateComparisonInsights courses).rating_range.max = some m ↔
        m ∈ courses.filterMap (·.rating) ∧
          ∀ y ∈ courses.filterMap (·.rating), y ≤ m) ∧
      (courses.filterMap (·.rating) ≠ [] →
        (generateComparisonInsights courses).rating_range.avg =
          some ((jsRound (listSum (courses.filterMap (·.rating)) /
            (courses.filterMap (·.rating)).length * 10) : ℚ) / 10)) ∧
      ((courses.filterMap (·.rating)) = [] →
        (generateComparisonInsights courses).rating_range = {}) ∧
      (∀ m : ℚ, (generateComparisonInsights courses).credits_range.min = some m ↔
        m ∈ courses.filterMap (·.credits) ∧
          ∀ y ∈ courses.filterMap (·.credits), m ≤ y) ∧
      (∀ m : ℚ, (generateComparisonInsights courses).credits_range.max = some m ↔
        m ∈ courses.filterMap (·.credits) ∧
          ∀ y ∈ courses.filterMap (·.credits), y ≤ m) ∧
      (courses.filterMap (·.credits) ≠ [] →
        (generateComparisonInsights courses).credits_range.avg =
          some ((jsRound (listSum (courses.filterMap (·.credits)) /
            (courses.filterMap (·.credits)).length * 10) : ℚ) / 10)) ∧
      ((courses.filterMap (·.credits)) = [] →
        (generateComparisonInsights courses).credits_range = {})) := by
  refine ⟨?_, ?_, ?_⟩
  · intro store ids r hok
    cases ids with
    | none => exact Except.noConfusion hok
    | some s =>
      rw [compareHandler_ok hok]
      have hins : (compareSuccess store (dedupFirst (compareTokens s))).insights =
          (if 1 < (orderedRows store (dedupFirst (compareTokens s))).length then
            some (generateComparisonInsights
              (orderedRows store (dedupFirst (compareTokens s))))
          else none) := rfl
      have hcrs : (compareSuccess store (dedupFirst (compareTokens s))).courses =
          orderedRows store (dedupFirst (compareTokens s)) := rfl
      rw [hins, hcrs]
      by_cases h : 1 < (orderedRows store (dedupFirst (compareTokens s))).length
      · simp only [if_pos h]
        refine ⟨⟨fun _ => h, fun _ => ⟨_, rfl⟩⟩, fun i hi => (Option.some.inj hi).symm⟩
      · simp only [if_neg h]
        refine ⟨⟨fun hex => ?_, fun hlt => absurd hlt h⟩, fun i hi => Option.noConfusion hi⟩
        obtain ⟨i, hi⟩ := hex
        exact Option.noConfusion hi
  · intro x
    have h1 : (⌊x + 1 / 2⌋ : ℚ) ≤ x + 1 / 2 := Int.floor_le _
    have h2 : x + 1 / 2 < ⌊x + 1 / 2⌋ + 1 := Int.lt_floor_add_one _
    rw [jsRound, abs_le]
    constructor <;> linarith
  · intro courses
    exact ⟨fun m => guardedStats_min _ _, fun m => guardedStats_max _ _,
      fun hne => guardedStats_avg _ _ hne, fun he => guardedStats_empty _ _ he,
      fun m => guardedStats_min _ _, fun m => guardedStats_max _ _,
      fun hne => guardedStats_avg _ _ hne, fun he => guardedStats_empty _ _ he,
      fun m => guardedStats_min _ _, fun m => guardedStats_max _ _,
      fun hne => guardedStats_avg _ _ hne, fun he => guardedStats_empty _ _ he⟩

/-- Witness for C9: a two-row store compared via `ids = "1,2"`, plus the fee
minimum and the rating average over the same concrete rows. -/
theorem comparison_insights_spec_witness :
    ((∃ i, (compareSuccess [rowA, rowB]
        (dedupFirst (compareTokens "1,2"))).insights = some i) ↔
      1 < (compareSuccess [rowA, rowB]
        (dedupFirst (compareTokens "1,2"))).courses.length) ∧
    ((generateComparisonInsights [rowA, rowB]).fee_range.min = some 1000 ↔
      ((1000 : ℚ) ∈ ([rowA, rowB] : List Course).filterMap (·.tuition_fee_inr) ∧
        ∀ y ∈ ([rowA, rowB] : List Course).filterMap (·.tuition_fee_inr),
          1000 ≤ y)) ∧
    ((generateComparisonInsights [rowA, rowB]).rating_range.avg =
      some ((jsRound (listSum (([rowA, rowB] : List Course).filterMap (·.rating)) /
        (([rowA, rowB] : List Course).filterMap (·.rating)).length * 10) : ℚ) / 10)) :=
  ⟨(comparison_insights_spec.1 [rowA, rowB] (some "1,2") _ rfl).1,
    (comparison_insights_spec.2.2 [rowA, rowB]).1 1000,
    (comparison_insights_spec.2.2 [rowA, rowB]).2.2.2.2.2.2.1 (by decide)⟩

/-- **C2 counterexample.** On
`"online postgraduate management courses rated above 4"` the extractor also
sets `min_fee := 4` — the fee regex
`(?:above|over|…)\s*(?:rs\.?|inr|₹)?\s*(\d+…)` matches the text
`"above 4"` of the rating phrase — and leaves the residue `q := "above"`, so
the raw filter map is not exactly the four claimed keys. -/
theorem parse_scenario_counterexample :
    (parseNaturalLanguageQuery
      "online postgraduate management courses rated above 4").min_fee =
        some 4 ∧
    (parseNaturalLanguageQuery
      "online postgraduate management courses rated above 4").q =
        some "above" :=
  ⟨rfl, rfl⟩

/-- **C2 (amended).** The extractor maps
`"online postgraduate management courses rated above 4"` to
`{delivery_mode: "online", level: "PG", department: "Management",
min_rating: 4, min_fee: 4, q: "above"}`: the four claimed keys plus a
spurious `min_fee` from the fee "above" pattern and the residue token
"above". -/
theorem parse_scenario_amended :
    parseNaturalLanguageQuery
      "online postgraduate management courses rated above 4" =
      { delivery_mode := some "online", level := some "PG",
        min_fee := some 4, min_rating := some 4,
        department := some "Management", q := some "above" } := by
  decide

/-- When the fee family selects its `between` pattern (the two earlier fee
regexes failed), the handler writes the swapped bounds. -/
theorem applyFee_between {s : List Char} {x y : Nat} (f : RawFilters)
    (h1 : feeUnderMatch s = none) (h2 : feeAboveMatch s = none)
    (h3 : feeBetweenMatch s = some (x, y)) :
    applyFee s f =
      { f with min_fee := some (Nat.min x y), max_fee := some (Nat.max x y) } := by
  unfold applyFee
  rw [h1, h2, h3]

/-- When the rating family selects its `between` pattern, the handler writes
the swapped bounds. -/
theorem applyRating_between {s : List Char} {x y : ℚ} (f : RawFilters)
    (h1 : ratingAboveMatch s = none) (h2 : ratingBelowMatch s = none)
    (h3 : ratingBetweenMatch s = some (x, y)) :
    applyRating s f =
      { f with min_rating := some (min x y), max_rating := some (max x y) } := by
  unfold applyRating
  rw [h1, h2, h3]

/-- When the bare `N credits` pattern matches, it wins the credits family and
pins both bounds to `N`. -/
theorem applyCredits_bare {s : List Char} {n : Nat} (f : RawFilters)
    (h : creditsBareMatch s = some n) :
    applyCredits s f =
      { f with min_credits := some n, max_credits := some n } := by
  unfold applyCredits
  rw [h]

/-- When the bare pattern fails and the credits `between` pattern matches,
the handler writes the swapped bounds. -/
theorem applyCredits_between {s : List Char} {x y : Nat} (f : RawFilters)
    (h1 : creditsBareMatch s = none)
    (h2 : creditsBetweenMatch s = some (x, y)) :
    applyCredits s f =
      { f with min_credits := some (Nat.min x y),
               max_credits := some (Nat.max x y) } := by
  unfold applyCredits
  rw [h1, h2]

/-- The rating step never touches the fee or credits keys. -/
theorem applyRating_fields (s : List Char) (f : RawFilters) :
    (applyRating s f).min_fee = f.min_fee ∧
    (applyRating s f).max_fee = f.max_fee ∧
    (applyRating s f).min_credits = f.min_credits ∧
    (applyRating s f).max_credits = f.max_credits := by
  unfold applyRating
  repeat' split
  all_goals exact ⟨rfl, rfl, rfl, rfl⟩

/-- The credits step never touches the fee or rating keys. -/
theorem applyCredits_fields (s : List Char) (f : RawFilters) :
    (applyCredits s f).min_fee = f.min_fee ∧
    (applyCredits s f).max_fee = f.max_fee ∧
    (applyCredits s f).min_rating = f.min_rating ∧
    (applyCredits s f).max_rating = f.max_rating := by
  unfold applyCredits
  repeat' split
  all_goals exact ⟨rfl, rfl, rfl, rfl⟩

/-- The department step never touches the numeric range keys. -/
theorem applyDepartment_fields (s : List Char) (f : RawFilters) :
    (applyDepartment s f).min_fee = f.min_fee ∧
    (applyDepartment s f).max_fee = f.max_fee ∧
    (applyDepartment s f).min_rating = f.min_rating ∧
    (applyDepartment s f).max_rating = f.max_rating ∧
    (applyDepartment s f).min_credits = f.min_credits ∧
    (applyDepartment s f).max_credits = f.max_credits := by
  unfold applyDepartment
  split
  all_goals exact ⟨rfl, rfl, rfl, rfl, rfl, rfl⟩

/-- The year step never touches the numeric range keys. -/
theorem applyYear_fields (s : List Char) (f : RawFilters) :
    (applyYear s f).min_fee = f.min_fee ∧
    (applyYear s f).max_fee = f.max_fee ∧
    (applyYear s f).min_rating = f.min_rating ∧
    (applyYear s f).max_rating = f.max_rating ∧
    (applyYear s f).min_credits = f.min_credits ∧
    (applyYear s f).max_credits = f.max_credits := by
  unfold applyYear
  split
  all_goals exact ⟨rfl, rfl, rfl, rfl, rfl, rfl⟩

/-- The residue step never touches the numeric range keys. -/
theorem applyResidue_fields (s : List Char) (f : RawFilters) :
    (applyResidue s f).min_fee = f.min_fee ∧
    (applyResidue s f).max_fee = f.max_fee ∧
    (applyResidue s f).min_rating = f.min_rating ∧
    (applyResidue s f).max_rating = f.max_rating ∧
    (applyResidue s f).min_credits = f.min_credits ∧
    (applyResidue s f).max_credits = f.max_credits := by
  unfold applyResidue
  dsimp only
  split
  all_goals exact ⟨rfl, rfl, rfl, rfl, rfl, rfl⟩

/-- **C7.** Whenever the Intent Extractor applies a `between X and Y` pattern
with reversed bounds, the raw filter map ends with both corresponding bounds
set and `min ≤ max`: the fee and rating families swap the bounds; for
credits, a text matching the credits `between` pattern always also matches
the earlier bare `N credits` pattern, so both bounds are set (equal, or
swapped) and ordered either way. -/
theorem between_ranges_normalized :
    (∀ (q : String) (x y : Nat),
      feeUnderMatch (normText q) = none →
      feeAboveMatch (normText q) = none →
      feeBetweenMatch (normText q) = some (x, y) →
      y < x →
      (parseNaturalLanguageQuery q).min_fee = some (Nat.min x y) ∧
      (parseNaturalLanguageQuery q).max_fee = some (Nat.max x y) ∧
      Nat.min x y ≤ Nat.max x y) ∧
    (∀ (q : String) (x y : ℚ),
      ratingAboveMatch (normText q) = none →
      ratingBelowMatch (normText q) = none →
      ratingBetweenMatch (normText q) = some (x, y) →
      y < x →
      (parseNaturalLanguageQuery q).min_rating = some (min x y) ∧
      (parseNaturalLanguageQuery q).max_rating = some (max x y) ∧
      min x y ≤ max x y) ∧
    (∀ (q : String) (x y : Nat),
      creditsBetweenMatch (normText q) = some (x, y) →
      y < x →
      ∃ a b : Nat, (parseNaturalLanguageQuery q).min_credits = some a ∧
        (parseNaturalLanguageQuery q).max_credits = some b ∧ a ≤ b) := by
  refine ⟨?_, ?_, ?_⟩
  · intro q x y h1 h2 h3 _hxy
    have hfee := applyFee_between
      (applyLevel (normText q) (applyDelivery (normText q) {})) h1 h2 h3
    have hchain : parseNaturalLanguageQuery q =
        applyResidue (normText q) (applyYear (normText q)
          (applyDepartment (normText q) (applyCredits (normText q)
            (applyRating (normText q) (applyFee (normText q)
              (applyLevel (normText q) (applyDelivery (normText q) {}))))))) :=
      rfl
    refine ⟨?_, ?_, le_trans (Nat.min_le_left x y) (Nat.le_max_left x y)⟩
    · rw [hchain, (applyResidue_fields _ _).1, (applyYear_fields _ _).1,
        (applyDepartment_fields _ _).1, (applyCredits_fields _ _).1,
        (applyRating_fields _ _).1, hfee]
    · rw [hchain, (applyResidue_fields _ _).2.1, (applyYear_fields _ _).2.1,
        (applyDepartment_fields _ _).2.1, (applyCredits_fields _ _).2.1,
        (applyRating_fields _ _).2.1, hfee]
  · intro q x y h1 h2 h3 _hxy
    have hrat := applyRating_between
      (applyFee (normText q) (applyLevel (normText q)
        (applyDelivery (normText q) {}))) h1 h2 h3
    have hchain : parseNaturalLanguageQuery q =
        applyResidue (normText q) (applyYear (normText q)
          (applyDepartment (normText q) (applyCredits (normText q)
            (applyRating (normText q) (applyFee (normText q)
              (applyLevel (normText q) (applyDelivery (normText q) {}))))))) :=
      rfl
    refine ⟨?_, ?_, min_le_of_left_le (le_max_left x y)⟩
    · rw [hchain, (applyResidue_fields _ _).2.2.1, (applyYear_fields _ _).2.2.1,
        (applyDepartment_fields _ _).2.2.1, (applyCredits_fields _ _).2.2.1,
        hrat]
    · rw [hchain, (applyResidue_fields _ _).2.2.2.1,
        (applyYear_fields _ _).2.2.2.1, (applyDepartment_fields _ _).2.2.2.1,
        (applyCredits_fields _ _).2.2.2, hrat]
  · intro q x y h3 _hxy
    have hchain : parseNaturalLanguageQuery q =
        applyResidue (normText q) (applyYear (normText q)
          (applyDepartment (normText q) (applyCredits (normText q)
            (applyRating (normText q) (applyFee (normText q)
              (applyLevel (normText q) (applyDelivery (normText q) {}))))))) :=
      rfl
    rcases hbare : creditsBareMatch (normText q) with _ | n
    · refine ⟨Nat.min x y, Nat.max x y, ?_, ?_,
        le_trans (Nat.min_le_left x y) (Nat.le_max_left x y)⟩
      · rw [hchain, (applyResidue_fields _ _).2.2.2.2.1,
          (applyYear_fields _ _).2.2.2.2.1,
          (applyDepartment_fields _ _).2.2.2.2.1,
          applyCredits_between _ hbare h3]
      · rw [hchain, (applyResidue_fields _ _).2.2.2.2.2,
          (applyYear_fields _ _).2.2.2.2.2,
          (applyDepartment_fields _ _).2.2.2.2.2,
          applyCredits_between _ hbare h3]
    · refine ⟨n, n, ?_, ?_, le_refl n⟩
      · rw [hchain, (applyResidue_fields _ _).2.2.2.2.1,
          (applyYear_fields _ _).2.2.2.2.1,
          (applyDepartment_fields _ _).2.2.2.2.1,
          applyCredits_bare _ hbare]
      · rw [hchain, (applyResidue_fields _ _).2.2.2.2.2,
          (applyYear_fields _ _).2.2.2.2.2,
          (applyDepartment_fields _ _).2.2.2.2.2,
          applyCredits_bare _ hbare]

/-- Witness for C7: the three `between` shapes with reversed bounds. -/
theorem between_ranges_normalized_witness :
    ((parseNaturalLanguageQuery "between 80000 and 40000").min_fee =
        some (Nat.min 80000 40000) ∧
      (parseNaturalLanguageQuery "between 80000 and 40000").max_fee =
        some (Nat.max 80000 40000) ∧
      Nat.min 80000 40000 ≤ Nat.max 80000 40000) ∧
    ((parseNaturalLanguageQuery "rated between 5 and 3").min_rating =
        some (min (5 : ℚ) 3) ∧
      (parseNaturalLanguageQuery "rated between 5 and 3").max_rating =
        some (max (5 : ℚ) 3) ∧
      min (5 : ℚ) 3 ≤ max (5 : ℚ) 3) ∧
    (∃ a b : Nat,
      (parseNaturalLanguageQuery "between 9 and 6 credits").min_credits =
        some a ∧
      (parseNaturalLanguageQuery "between 9 and 6 credits").max_credits =
        some b ∧ a ≤ b) :=
  ⟨between_ranges_normalized.1 "between 80000 and 40000" 80000 40000
      rfl rfl rfl (by decide),
    between_ranges_normalized.2.1 "rated between 5 and 3" 5 3
      rfl rfl rfl (by norm_num),
    between_ranges_normalized.2.2 "between 9 and 6 credits" 9 6
      rfl (by decide)⟩

end CourseQuest
